import Mathlib

/-!
Atractor de Lorenz: particle simulator (`09 EDO/05 AtractorLorenz.cpp`)

Shallow embedding of the simulation core.  The C++ `float` is idealised as an
arbitrary linearly ordered field `α` (the theorems that need square roots or
trigonometry are stated over `ℝ`); rounding is not modelled.  The functions of
`<cmath>` (`sqrtf`, `sinf`, `cosf`), the constant `DEG2RAD` and the results of
`GetRandomValue` are external to the repository and are passed as arguments.
The vector helpers of `raymath.h` (`Vector3Add`, `Vector3Normalize`, ...) belong to
the raylib library; they are written out here as that header defines them.
-/

namespace AtractorLorenz

/-! ## Configuration -/

/-- Source: `const int MAX_PARTICULAS = 500;` -/
def MAX_PARTICULAS : Nat := 500

/-- Source: `const int MAX_TRAIL = 50;` -/
def MAX_TRAIL : Nat := 50

/-- The six global tunable scalars `sigma, rho, beta, dt, factorLorenz, fuerzaSpin`
(lines 13-18), read by every simulation routine. -/
structure Parametros (α : Type) where
  sigma : α
  rho : α
  beta : α
  dt : α
  factorLorenz : α
  fuerzaSpin : α

/-! ## raylib / raymath types and vector operations -/

/-- The raylib `Vector3`: three scalar components. -/
structure Vector3 (α : Type) where
  x : α
  y : α
  z : α
deriving DecidableEq

/-- The raylib `Color`: four `unsigned char` channels. -/
structure Color where
  r : Nat
  g : Nat
  b : Nat
  a : Nat
deriving DecidableEq

section Vectores

variable {α : Type} [LinearOrderedField α]

/-- The raymath `Vector3Add`: componentwise sum. -/
def Vector3Add (v1 v2 : Vector3 α) : Vector3 α :=
  ⟨v1.x + v2.x, v1.y + v2.y, v1.z + v2.z⟩

/-- The raymath `Vector3Subtract`: componentwise difference. -/
def Vector3Subtract (v1 v2 : Vector3 α) : Vector3 α :=
  ⟨v1.x - v2.x, v1.y - v2.y, v1.z - v2.z⟩

/-- The raymath `Vector3Scale`: multiplication of every component by a scalar. -/
def Vector3Scale (v : Vector3 α) (scalar : α) : Vector3 α :=
  ⟨v.x * scalar, v.y * scalar, v.z * scalar⟩

/-- The raymath `Vector3Length`: `sqrtf(v.x*v.x + v.y*v.y + v.z*v.z)`. -/
def Vector3Length (sqrtf : α → α) (v : Vector3 α) : α :=
  sqrtf (v.x * v.x + v.y * v.y + v.z * v.z)

/-- The raymath `Vector3Distance`: length of the difference `v2 - v1`. -/
def Vector3Distance (sqrtf : α → α) (v1 v2 : Vector3 α) : α :=
  let dx := v2.x - v1.x
  let dy := v2.y - v1.y
  let dz := v2.z - v1.z
  sqrtf (dx * dx + dy * dy + dz * dz)

/-- The raymath `Vector3Normalize`: `result = v; length = sqrtf(...);
if (length != 0.0f) { ilength = 1.0f/length; result.x *= ilength; ... }`, so a vector
of length zero is returned unchanged. -/
def Vector3Normalize (sqrtf : α → α) (v : Vector3 α) : Vector3 α :=
  let length := sqrtf (v.x * v.x + v.y * v.y + v.z * v.z)
  if length ≠ 0 then
    let ilength := 1 / length
    ⟨v.x * ilength, v.y * ilength, v.z * ilength⟩
  else v

end Vectores

/-! ## Particula -/

/-- The `struct Particula` (lines 76-83): `rastro` is the `std::deque`, front first;
`tipo` is `0` (flow towards the hole) or `1` (orbit around the planet). -/
structure Particula (α : Type) where
  pos : Vector3 α
  vel : Vector3 α
  rastro : List (Vector3 α)
  color : Color
  vida : α
  activa : Bool
  tipo : Int

/-- The three force contributions written by `calcularFuerzas` through its
reference parameters. -/
structure Fuerzas (α : Type) where
  fLorenz : Vector3 α
  fGrav : Vector3 α
  fSpin : Vector3 α

section ParticulaOps

variable {α : Type} [LinearOrderedField α]

/-- The constructor `Particula() : vida(0), activa(false), tipo(0) {}`; the
members it leaves uninitialised (`pos`, `vel`, `color`) are taken as zero and the
deque starts empty. -/
def Particula.nueva : Particula α :=
  { pos := ⟨0, 0, 0⟩, vel := ⟨0, 0, 0⟩, rastro := [], color := ⟨0, 0, 0, 0⟩,
    vida := 0, activa := false, tipo := 0 }

/-- Source `Particula::reset` (lines 87-96). -/
def Particula.reset (self : Particula α) (p v : Vector3 α) (c : Color) (t : Int) :
    Particula α :=
  { self with
    pos := p
    vel := v
    color := c
    vida := 0
    activa := true
    tipo := t
    rastro := [p] }

/-- Source `Particula::lorenz` (lines 98-104): the classical Lorenz vector field. -/
def Particula.lorenz (g : Parametros α) (p : Vector3 α) : Vector3 α :=
  ⟨g.sigma * (p.y - p.x), p.x * (g.rho - p.z) - p.y, p.x * p.y - g.beta * p.z⟩

/-- Source `Particula::debeReset` (lines 208-214). -/
def Particula.debeReset (sqrtf : α → α) (self : Particula α)
    (planeta agujero : Vector3 α) : Bool :=
  if !self.activa then true
  else
    let da := Vector3Distance sqrtf self.pos agujero
    let dp := Vector3Distance sqrtf self.pos planeta
    let tiempoMax : α := if self.tipo = 0 then 15.0 else 25.0
    decide (da < 0.8) || decide (dp > 100.0) || decide (self.vida > tiempoMax)
      || decide (da > 150.0)

/-- Source `Particula::calcularFuerzas` (lines 106-154): the Lorenz drift, the gravity
towards both foci and the differential torque, evaluated at the point `p`. -/
def Particula.calcularFuerzas (sqrtf : α → α) (g : Parametros α) (self : Particula α)
    (p planeta agujero : Vector3 α) : Fuerzas α :=
  let fLorenz := Particula.lorenz g p
  let haciaAgujero := Vector3Subtract agujero p
  let distAgujero := Vector3Length sqrtf haciaAgujero
  let dirAgujero := Vector3Normalize sqrtf haciaAgujero
  let haciaPlaneta := Vector3Subtract planeta p
  let distPlaneta := Vector3Length sqrtf haciaPlaneta
  let fGrav0 : Vector3 α := ⟨0, 0, 0⟩
  let masaAgujero : α := if self.tipo = 0 then 500.0 else 150.0
  let fGrav1 :=
    if distAgujero > 1.0 then
      Vector3Add fGrav0
        (Vector3Scale dirAgujero (masaAgujero / (distAgujero * distAgujero + 10.0)))
    else fGrav0
  let masaPlaneta : α := if self.tipo = 0 then 50.0 else 200.0
  let fGrav2 :=
    if distPlaneta > 0.5 then
      let dirPlaneta := Vector3Normalize sqrtf haciaPlaneta
      Vector3Add fGrav1 (Vector3Scale dirPlaneta (masaPlaneta / (distPlaneta * distPlaneta)))
    else fGrav1
  let fSpin0 : Vector3 α := ⟨0, 0, 0⟩
  let fSpin1 :=
    if distPlaneta < 25.0 then
      let spinA : Vector3 α := ⟨-haciaPlaneta.y, haciaPlaneta.x, 0⟩
      let factorA := 1.0 - (distPlaneta / 25.0)
      let intensidad := if self.tipo = 0 then g.fuerzaSpin else g.fuerzaSpin * 2.5
      Vector3Add fSpin0 (Vector3Scale (Vector3Normalize sqrtf spinA) (intensidad * factorA))
    else fSpin0
  let fSpin2 :=
    if distAgujero < 20.0 then
      let spinB : Vector3 α := ⟨haciaAgujero.y, -haciaAgujero.x, 0⟩
      let factorB := 1.0 - (distAgujero / 20.0)
      Vector3Add fSpin1 (Vector3Scale (Vector3Normalize sqrtf spinB) (g.fuerzaSpin * factorB))
    else fSpin1
  { fLorenz := fLorenz, fGrav := fGrav2, fSpin := fSpin2 }

/-- The lambda `evaluar` of `actualizar` (lines 159-169): returns the position
derivative `v` and, through `dvdt`, the net acceleration at `p`; here a pair. -/
def Particula.evaluar (sqrtf : α → α) (g : Parametros α) (self : Particula α)
    (planeta agujero p v : Vector3 α) : Vector3 α × Vector3 α :=
  let f := self.calcularFuerzas sqrtf g p planeta agujero
  let acc := Vector3Add (Vector3Scale f.fLorenz g.factorLorenz) (Vector3Add f.fGrav f.fSpin)
  (v, acc)

/-- The eight stage values `k1_p .. k4_p`, `k1_v .. k4_v` of one RK4 step. -/
structure EtapasRK4 (α : Type) where
  k1_p : Vector3 α
  k2_p : Vector3 α
  k3_p : Vector3 α
  k4_p : Vector3 α
  k1_v : Vector3 α
  k2_v : Vector3 α
  k3_v : Vector3 α
  k4_v : Vector3 α

/-- The four stage evaluations of `actualizar` (lines 175-187). -/
def Particula.etapas (sqrtf : α → α) (g : Parametros α) (self : Particula α)
    (planeta agujero : Vector3 α) : EtapasRK4 α :=
  let e1 := self.evaluar sqrtf g planeta agujero self.pos self.vel
  let p_temp2 := Vector3Add self.pos (Vector3Scale e1.1 (g.dt * 0.5))
  let v_temp2 := Vector3Add self.vel (Vector3Scale e1.2 (g.dt * 0.5))
  let e2 := self.evaluar sqrtf g planeta agujero p_temp2 v_temp2
  let p_temp3 := Vector3Add self.pos (Vector3Scale e2.1 (g.dt * 0.5))
  let v_temp3 := Vector3Add self.vel (Vector3Scale e2.2 (g.dt * 0.5))
  let e3 := self.evaluar sqrtf g planeta agujero p_temp3 v_temp3
  let p_temp4 := Vector3Add self.pos (Vector3Scale e3.1 g.dt)
  let v_temp4 := Vector3Add self.vel (Vector3Scale e3.2 g.dt)
  let e4 := self.evaluar sqrtf g planeta agujero p_temp4 v_temp4
  { k1_p := e1.1, k2_p := e2.1, k3_p := e3.1, k4_p := e4.1,
    k1_v := e1.2, k2_v := e2.2, k3_v := e3.2, k4_v := e4.2 }

/-- Source `Particula::actualizar` (lines 156-206): one RK4 step, damping, ageing and the
trail update; an inactive particle is returned as it is. -/
def Particula.actualizar (sqrtf : α → α) (g : Parametros α) (self : Particula α)
    (planeta agujero : Vector3 α) : Particula α :=
  if !self.activa then self
  else
    let k := self.etapas sqrtf g planeta agujero
    let suma_p := Vector3Add (Vector3Add k.k1_p (Vector3Scale k.k2_p 2.0))
      (Vector3Add (Vector3Scale k.k3_p 2.0) k.k4_p)
    let suma_v := Vector3Add (Vector3Add k.k1_v (Vector3Scale k.k2_v 2.0))
      (Vector3Add (Vector3Scale k.k3_v 2.0) k.k4_v)
    let pos := Vector3Add self.pos (Vector3Scale suma_p (g.dt / 6.0))
    let vel := Vector3Add self.vel (Vector3Scale suma_v (g.dt / 6.0))
    let vel := Vector3Scale vel 0.99
    let vida := self.vida + g.dt
    let rastro := pos :: self.rastro
    let rastro := if rastro.length > MAX_TRAIL then rastro.dropLast else rastro
    { self with pos := pos, vel := vel, vida := vida, rastro := rastro }

end ParticulaOps

/-! ## Sistema -/

/-- The `struct Sistema` (lines 257-260): the particle pool and the two foci. -/
structure Sistema (α : Type) where
  particulas : List (Particula α)
  planeta : Vector3 α
  agujero : Vector3 α

/-- The integers returned by the `GetRandomValue` calls of one `spawn`:
`tipo` from `(0, 100)`, `ang` from `(0, 360)`, `radio` from `(0, 300)` (flow) or
`(0, 400)` (orbit), `altura` from `(-150, 150)` or `(-100, 100)`, `avance` from
`(0, 100)`, `velMag` from `(0, 400)` and `jitter` from `(0, 40)`. -/
structure Sorteo where
  tipo : Int
  ang : Int
  radio : Int
  altura : Int
  avance : Int
  velMag : Int
  jitter : Int

/-- The values `GetRandomValue(min, max)` of raylib can return: every integer from
`min` to `max`, both ends included. -/
def GetRandomValueRango (min max : Int) : Finset Int := Finset.Icc min max

section SistemaOps

variable {α : Type} [LinearOrderedField α] [FloorRing α]

/-- The conversion `(unsigned char)(x)` of a `float`: truncation, kept in `0..255`. -/
def aUnsignedChar (x : α) : Nat := (Int.toNat ⌊x⌋) % 256

/-- The C++ `std::vector::resize(n)`: the first `n` elements, padded with default-constructed
particles. -/
def resize (l : List (Particula α)) (n : Nat) : List (Particula α) :=
  l.take n ++ List.replicate (n - l.length) Particula.nueva

/-- Source `Sistema::calcularFocos` (lines 268-272). -/
def Sistema.calcularFocos (sqrtf : α → α) (g : Parametros α) (s : Sistema α) : Sistema α :=
  let b := sqrtf (max 0.0 (g.beta * (g.rho - 1.0)))
  { s with planeta := ⟨-b, -b, g.rho - 1.0⟩, agujero := ⟨b, b, g.rho - 1.0⟩ }

/-- The variant chosen from the first draw (line 276):
`(GetRandomValue(0, 100) < 20) ? 1 : 0`. -/
def spawnTipo (sorteo : Int) : Int := if sorteo < 20 then 1 else 0

/-- The local `dir` of `spawn` (line 279). -/
def spawnDir (sqrtf : α → α) (planeta agujero : Vector3 α) : Vector3 α :=
  Vector3Normalize sqrtf (Vector3Subtract agujero planeta)

/-- The local `perp` of `spawn` after normalisation (lines 280-282). -/
def spawnPerp (sqrtf : α → α) (dir : Vector3 α) : Vector3 α :=
  let perp : Vector3 α := ⟨-dir.z, 0, dir.x⟩
  let perp : Vector3 α := if Vector3Length sqrtf perp < 0.01 then ⟨0, 1, 0⟩ else perp
  Vector3Normalize sqrtf perp

/-- The local `perpRot` of `spawn` (lines 284-288). -/
def spawnPerpRot (sinf cosf : α → α) (perp : Vector3 α) (ang : α) : Vector3 α :=
  ⟨perp.x * cosf ang - perp.z * sinf ang, sinf ang, perp.x * sinf ang + perp.z * cosf ang⟩

/-- The local `velOrbita` of the orbit branch (line 331), from the radius and the
jitter draw. -/
def spawnVelOrbita (sqrtf : α → α) (radio : α) (jitter : Int) : α :=
  sqrtf (200.0 / radio) * (0.8 + (jitter : α) / 100.0)

/-- The local `tangencial` of the orbit branch after normalisation (lines 334-335). -/
def spawnTangencial (sqrtf : α → α) (perpRot : Vector3 α) : Vector3 α :=
  let tangencial : Vector3 α := ⟨-perpRot.y, perpRot.x, 0⟩
  Vector3Normalize sqrtf tangencial

/-- Source `Sistema::spawn` (lines 274-347): slot `idx` is reset with initial conditions
sampled from the draws `r`. -/
def Sistema.spawn (sqrtf sinf cosf : α → α) (DEG2RAD : α) (s : Sistema α) (r : Sorteo)
    (idx : Nat) : Sistema α :=
  let tipo := spawnTipo r.tipo
  let ang := (r.ang : α) * DEG2RAD
  let dir := spawnDir sqrtf s.planeta s.agujero
  let perp := spawnPerp sqrtf dir
  let perpRot := spawnPerpRot sinf cosf perp ang
  if tipo = 0 then
    let radio : α := 1.2 + (r.radio : α) / 100.0
    let altura : α := (r.altura : α) / 100.0
    let pos := Vector3Add s.planeta
      (Vector3Add (Vector3Scale dir (1.0 + (r.avance : α) / 100.0))
        (Vector3Add (Vector3Scale perpRot radio) ⟨0, 0, altura⟩))
    let velMag : α := 6.0 + (r.velMag : α) / 100.0
    let velDir := Vector3Normalize sqrtf (Vector3Add dir (Vector3Scale perpRot 0.3))
    let vel := Vector3Scale velDir velMag
    let intensidad := aUnsignedChar (150 + velMag * 10)
    let c : Color := ⟨255, intensidad, aUnsignedChar (50 + velMag * 20), 255⟩
    { s with particulas := s.particulas.modify (fun q => q.reset pos vel c tipo) idx }
  else
    let radio : α := 2.0 + (r.radio : α) / 100.0
    let altura : α := (r.altura : α) / 100.0
    let pos := Vector3Add s.planeta (Vector3Add (Vector3Scale perpRot radio) ⟨0, 0, altura⟩)
    let velOrbita := spawnVelOrbita sqrtf radio r.jitter
    let tangencial := spawnTangencial sqrtf perpRot
    let vel := Vector3Add (Vector3Scale tangencial velOrbita) (Vector3Scale dir 1.5)
    let c : Color := ⟨100, 255, 100, 255⟩
    { s with particulas := s.particulas.modify (fun q => q.reset pos vel c tipo) idx }

/-- Source `Sistema::init` (lines 262-266); `sorteos i` holds the draws of `spawn(i)`. -/
def Sistema.init (sqrtf sinf cosf : α → α) (DEG2RAD : α) (g : Parametros α)
    (sorteos : Nat → Sorteo) (s : Sistema α) : Sistema α :=
  let s := { s with particulas := resize s.particulas MAX_PARTICULAS }
  let s := s.calcularFocos sqrtf g
  Nat.fold (fun i s => s.spawn sqrtf sinf cosf DEG2RAD (sorteos i) i) MAX_PARTICULAS s

/-- The body of the loop of `Sistema::update` for slot `i` (lines 352-353). -/
def Sistema.updatePaso (sqrtf sinf cosf : α → α) (DEG2RAD : α) (g : Parametros α)
    (sorteos : Nat → Sorteo) (i : Nat) (s : Sistema α) : Sistema α :=
  let s := { s with
    particulas := s.particulas.modify (fun q => q.actualizar sqrtf g s.planeta s.agujero) i }
  match s.particulas[i]? with
  | some q =>
    if q.debeReset sqrtf s.planeta s.agujero then s.spawn sqrtf sinf cosf DEG2RAD (sorteos i) i
    else s
  | none => s

/-- Source `Sistema::update` (lines 349-355); `sorteos i` holds the draws used if slot `i`
is respawned in this tick. -/
def Sistema.update (sqrtf sinf cosf : α → α) (DEG2RAD : α) (g : Parametros α)
    (sorteos : Nat → Sorteo) (s : Sistema α) : Sistema α :=
  let s := s.calcularFocos sqrtf g
  Nat.fold (Sistema.updatePaso sqrtf sinf cosf DEG2RAD g sorteos) MAX_PARTICULAS s

/-- The main loop after `init`: one `update` per element of `ticks`, each with its
own parameter values (the sliders may move between ticks) and its own draws. -/
def Sistema.correr (sqrtf sinf cosf : α → α) (DEG2RAD : α)
    (s : Sistema α) (ticks : List (Parametros α × (Nat → Sorteo))) : Sistema α :=
  ticks.foldl (fun s t => s.update sqrtf sinf cosf DEG2RAD t.1 t.2) s

end SistemaOps

/-- The age ceiling of a particle: the local `tiempoMax` of `debeReset` (line 212). -/
def Particula.tiempoMax {α : Type} [LinearOrderedField α] (q : Particula α) : α :=
  if q.tipo = 0 then 15.0 else 25.0

section SpawnLocales

variable {α : Type} [LinearOrderedField α]

/-- The value of the local `dir` of `spawn` in the system `s`. -/
def Sistema.dir (sqrtf : α → α) (s : Sistema α) : Vector3 α :=
  spawnDir sqrtf s.planeta s.agujero

/-- The value of the local `perpRot` of `spawn` in the system `s` for the draws `r`. -/
def Sistema.perpRot (sqrtf sinf cosf : α → α) (DEG2RAD : α) (s : Sistema α) (r : Sorteo) :
    Vector3 α :=
  spawnPerpRot sinf cosf (spawnPerp sqrtf (s.dir sqrtf)) ((r.ang : α) * DEG2RAD)

end SpawnLocales

/-- The draws of an orbit spawn at angle 90 degrees, radius `2.0 + 200/100 = 4.0`,
height 0 and jitter factor 1.0. -/
def sorteoOrbita90 : Sorteo :=
  { tipo := 0, ang := 90, radio := 200, altura := 0, avance := 0, velMag := 0, jitter := 20 }

/-- The draws of a flow spawn (variant draw 50) at angle 30 degrees with speed draw
200, i.e. `velMag = 8.0`. -/
def sorteoFlujo : Sorteo :=
  { tipo := 50, ang := 30, radio := 100, altura := 0, avance := 50, velMag := 200,
    jitter := 0 }

/-- Parameters inside the slider ranges (`rho = 33`, `beta = 8`) whose foci are
`(-16, -16, 32)` and `(16, 16, 32)`, since `sqrt (8 * 32) = 16`. -/
def parametrosFocos16 {α : Type} [LinearOrderedField α] : Parametros α :=
  { sigma := 10.0, rho := 33.0, beta := 8.0, dt := 0.01, factorLorenz := 0.04,
    fuerzaSpin := 8.0 }

/-! ## Slider -/

/-- The raylib `Vector2`. -/
structure Vector2 (α : Type) where
  x : α
  y : α

/-- The raylib `Rectangle`. -/
structure Rectangle (α : Type) where
  x : α
  y : α
  width : α
  height : α

/-- The global a slider is bound to: the target of its pointer `val`. -/
inductive Global where
  | sigma
  | rho
  | beta
  | dt
  | factorLorenz
  | fuerzaSpin
deriving DecidableEq

/-- The `struct Slider` (lines 414-418); `val` names the global the pointer refers to,
and the label and colour, used only for drawing, are left out. -/
structure Slider (α : Type) where
  r : Rectangle α
  minV : α
  maxV : α
  val : Global

/-- The mouse state a frame reads: `IsMouseButtonDown(MOUSE_LEFT_BUTTON)` and
`GetMousePosition()`. -/
structure Raton (α : Type) where
  botonAbajo : Bool
  posicion : Vector2 α

section SliderOps

variable {α : Type} [LinearOrderedField α]

/-- Reading through the pointer `val`. -/
def Global.leer (v : Global) (g : Parametros α) : α :=
  match v with
  | .sigma => g.sigma
  | .rho => g.rho
  | .beta => g.beta
  | .dt => g.dt
  | .factorLorenz => g.factorLorenz
  | .fuerzaSpin => g.fuerzaSpin

/-- Writing through the pointer `val`. -/
def Global.escribir (v : Global) (g : Parametros α) (x : α) : Parametros α :=
  match v with
  | .sigma => { g with sigma := x }
  | .rho => { g with rho := x }
  | .beta => { g with beta := x }
  | .dt => { g with dt := x }
  | .factorLorenz => { g with factorLorenz := x }
  | .fuerzaSpin => { g with fuerzaSpin := x }

/-- The raylib `CheckCollisionPointRec`: the point lies inside the rectangle. -/
def CheckCollisionPointRec (point : Vector2 α) (rec : Rectangle α) : Bool :=
  decide (point.x ≥ rec.x) && decide (point.x < rec.x + rec.width) &&
    decide (point.y ≥ rec.y) && decide (point.y < rec.y + rec.height)

/-- Source `Slider::update` (lines 424-433), on the globals `g`. -/
def Slider.update (self : Slider α) (raton : Raton α) (g : Parametros α) : Parametros α :=
  let g :=
    if raton.botonAbajo then
      let m := raton.posicion
      if CheckCollisionPointRec m self.r then
        let pct := (m.x - self.r.x) / self.r.width
        self.val.escribir g (self.minV + pct * (self.maxV - self.minV))
      else g
    else g
  self.val.escribir g (max self.minV (min self.maxV (self.val.leer g)))

/-- The slider `s1` of `main` (line 456), bound to `sigma`. -/
def s1 : Slider α := { r := ⟨20, 60, 180, 18⟩, minV := 1, maxV := 30, val := .sigma }

/-- The slider `s2` of `main` (line 457), bound to `rho`. -/
def s2 : Slider α := { r := ⟨20, 110, 180, 18⟩, minV := 1, maxV := 50, val := .rho }

/-- The slider `s3` of `main` (line 458), bound to `beta`. -/
def s3 : Slider α := { r := ⟨20, 160, 180, 18⟩, minV := 0.1, maxV := 10, val := .beta }

/-- The slider `s4` of `main` (line 459), bound to `dt`. -/
def s4 : Slider α := { r := ⟨20, 210, 180, 18⟩, minV := 0.001, maxV := 0.05, val := .dt }

/-- The slider `s5` of `main` (line 460), bound to `factorLorenz`. -/
def s5 : Slider α :=
  { r := ⟨20, 260, 180, 18⟩, minV := 0.0, maxV := 0.5, val := .factorLorenz }

/-- The slider `s6` of `main` (line 461), bound to `fuerzaSpin`. -/
def s6 : Slider α :=
  { r := ⟨20, 310, 180, 18⟩, minV := 0.0, maxV := 20.0, val := .fuerzaSpin }

/-- The array `sliders` of `main` (line 462). -/
def sliders : List (Slider α) := [s1, s2, s3, s4, s5, s6]

/-- The loop `for (auto s : sliders) s->update();` of `main` (line 468), which runs in
every frame before `sys.update()`. -/
def actualizarSliders (raton : Raton α) (g : Parametros α) : Parametros α :=
  (sliders : List (Slider α)).foldl (fun g s => s.update raton g) g

end SliderOps

/-- The particle after a sequence of `actualizar` steps, each with its own parameter
values and foci. -/
def Particula.pasos {α : Type} [LinearOrderedField α] (sqrtf : α → α) (q : Particula α)
    (entorno : List (Parametros α × Vector3 α × Vector3 α)) : Particula α :=
  entorno.foldl (fun q e => q.actualizar sqrtf e.1 e.2.1 e.2.2) q

/-- A freshly reset flow particle at the origin. -/
def particulaFlujo {α : Type} [LinearOrderedField α] : Particula α :=
  (Particula.nueva : Particula α).reset ⟨0, 0, 0⟩ ⟨0, 0, 0⟩ ⟨255, 210, 170, 255⟩ 0

/-- A freshly reset flow particle at the origin moving along the x axis. -/
def particulaLibre {α : Type} [LinearOrderedField α] : Particula α :=
  (Particula.nueva : Particula α).reset ⟨0, 0, 0⟩ ⟨0.1, 0, 0⟩ ⟨255, 210, 170, 255⟩ 0

/-- The default parameters with the Lorenz weight and the spin strength at zero (the
lower end of their sliders). -/
def parametrosSinFuerza {α : Type} [LinearOrderedField α] : Parametros α :=
  { sigma := 10.0, rho := 28.0, beta := 8.0 / 3.0, dt := 0.01, factorLorenz := 0.0,
    fuerzaSpin := 0.0 }

/-- The initial values of the six globals (lines 13-18). -/
def parametrosIniciales {α : Type} [LinearOrderedField α] : Parametros α :=
  { sigma := 10.0, rho := 28.0, beta := 8.0 / 3.0, dt := 0.01, factorLorenz := 0.04,
    fuerzaSpin := 8.0 }

/-- A `Sistema` before `init`: an empty pool (the foci, uninitialised in the source,
are taken at the origin). -/
def sistemaVacio {α : Type} [LinearOrderedField α] : Sistema α :=
  { particulas := [], planeta := ⟨0, 0, 0⟩, agujero := ⟨0, 0, 0⟩ }

/-- A pool of one default-constructed particle, foci not yet computed. -/
def sistemaUno {α : Type} [LinearOrderedField α] : Sistema α :=
  { particulas := [Particula.nueva], planeta := ⟨0, 0, 0⟩, agujero := ⟨0, 0, 0⟩ }

/-- The draws of an orbit spawn at angle 0 degrees, radius `2.0 + 200/100 = 4.0` and
jitter factor `0.8 + 20/100 = 1.0` (variant draw 0, below 20). -/
def sorteoOrbita : Sorteo :=
  { tipo := 0, ang := 0, radio := 200, altura := 0, avance := 0, velMag := 0, jitter := 20 }

/-- Parameters under which only the Lorenz drift acts on `particulaAcelerada`: no spin,
Lorenz weight 1, step 1. -/
def parametrosAcelerados {α : Type} [LinearOrderedField α] : Parametros α :=
  { sigma := 1, rho := 425 / 99, beta := 33 / 8, dt := 1, factorLorenz := 1, fuerzaSpin := 0 }

/-- A flow particle at `(2, 4, 128/99)` with velocity `(-1, -1, -4/3)`; with both foci
at `focoAcelerado` every stage point of its step lies inside both gravity gates. -/
def particulaAcelerada {α : Type} [LinearOrderedField α] : Particula α :=
  (Particula.nueva : Particula α).reset ⟨2, 4, 128 / 99⟩ ⟨-1, -1, -(4 / 3)⟩
    ⟨255, 210, 170, 255⟩ 0

/-- The point passed as both foci in the step of `particulaAcelerada`. -/
def focoAcelerado {α : Type} [LinearOrderedField α] : Vector3 α := ⟨7 / 4, 15 / 4, 95 / 99⟩

/-! ## Theorems -/

section Teoremas

variable {α : Type} [LinearOrderedField α]

theorem distancia_eje_x {d : ℝ} (hd : 0 ≤ d) :
    Vector3Distance Real.sqrt ⟨0, 0, 0⟩ ⟨d, 0, 0⟩ = d := by
  simp [Vector3Distance, Real.sqrt_mul_self hd]

/-- C1. `debeReset` is true exactly when the particle is inactive, or closer than
0.8 to `agujero`, or farther than 100 from `planeta`, or older than 15 (tipo 0) or
25 (any other tipo, i.e. tipo 1), or farther than 150 from `agujero`; hence an
active flow particle of age at most 15 within 100 of `planeta` is expired at
distance 0.79 from `agujero` and not expired at distance 0.81. -/
theorem debeReset_iff (sqrtf : α → α) (p : Particula α) (planeta agujero : Vector3 α) :
    (p.debeReset sqrtf planeta agujero = true ↔
      (p.activa = false ∨ Vector3Distance sqrtf p.pos agujero < 0.8 ∨
        Vector3Distance sqrtf p.pos planeta > 100 ∨
        (p.tipo = 0 ∧ p.vida > 15) ∨ (p.tipo ≠ 0 ∧ p.vida > 25) ∨
        Vector3Distance sqrtf p.pos agujero > 150)) ∧
    (p.activa = true → p.tipo = 0 → p.vida ≤ 15 →
      Vector3Distance sqrtf p.pos planeta ≤ 100 →
      (Vector3Distance sqrtf p.pos agujero = 0.79 → p.debeReset sqrtf planeta agujero = true) ∧
      (Vector3Distance sqrtf p.pos agujero = 0.81 →
        p.debeReset sqrtf planeta agujero = false)) := by
  have key : p.debeReset sqrtf planeta agujero = true ↔
      (p.activa = false ∨ Vector3Distance sqrtf p.pos agujero < 0.8 ∨
        Vector3Distance sqrtf p.pos planeta > 100 ∨
        (p.tipo = 0 ∧ p.vida > 15) ∨ (p.tipo ≠ 0 ∧ p.vida > 25) ∨
        Vector3Distance sqrtf p.pos agujero > 150) := by
    unfold Particula.debeReset
    cases hact : p.activa
    · simp
    · by_cases ht : p.tipo = 0
      · simp [ht, or_assoc]
        norm_num
      · simp [ht, or_assoc]
        norm_num
  refine ⟨key, ?_⟩
  intro hact ht hv hp
  constructor
  · intro hd
    rw [key]
    right; left
    rw [hd]; norm_num
  · intro hd
    rw [Bool.eq_false_iff, Ne, key]
    rintro (h | h | h | h | h | h)
    · rw [hact] at h; exact Bool.noConfusion h
    · rw [hd] at h; norm_num at h
    · exact absurd h (not_lt.mpr hp)
    · exact absurd h.2 (not_lt.mpr hv)
    · exact h.1 ht
    · rw [hd] at h; norm_num at h

theorem debeReset_iff_witness :
    ((particulaFlujo : Particula ℝ).activa = true ∧ (particulaFlujo : Particula ℝ).tipo = 0 ∧
      (particulaFlujo : Particula ℝ).vida ≤ 15 ∧
      Vector3Distance Real.sqrt (particulaFlujo : Particula ℝ).pos ⟨0, 0, 0⟩ ≤ 100 ∧
      Vector3Distance Real.sqrt (particulaFlujo : Particula ℝ).pos ⟨0.79, 0, 0⟩ = 0.79) ∧
    (particulaFlujo : Particula ℝ).debeReset Real.sqrt ⟨0, 0, 0⟩ ⟨0.79, 0, 0⟩ = true := by
  have hpos : (particulaFlujo : Particula ℝ).pos = ⟨0, 0, 0⟩ := rfl
  have h1 : (particulaFlujo : Particula ℝ).activa = true := rfl
  have h2 : (particulaFlujo : Particula ℝ).tipo = 0 := rfl
  have h3 : (particulaFlujo : Particula ℝ).vida ≤ 15 := by
    show (0 : ℝ) ≤ 15
    norm_num
  have h4 : Vector3Distance Real.sqrt (particulaFlujo : Particula ℝ).pos ⟨0, 0, 0⟩ ≤ 100 := by
    rw [hpos, distancia_eje_x le_rfl]; norm_num
  have h5 : Vector3Distance Real.sqrt (particulaFlujo : Particula ℝ).pos ⟨0.79, 0, 0⟩
      = 0.79 := by
    rw [hpos, distancia_eje_x (by norm_num)]
  exact ⟨⟨h1, h2, h3, h4, h5⟩,
    ((debeReset_iff Real.sqrt particulaFlujo ⟨0, 0, 0⟩ ⟨0.79, 0, 0⟩).2 h1 h2 h3 h4).1 h5⟩

/-! ### Trail and age -/

theorem actualizar_activa (sqrtf : α → α) (g : Parametros α) (q : Particula α)
    (planeta agujero : Vector3 α) :
    (q.actualizar sqrtf g planeta agujero).activa = q.activa := by
  unfold Particula.actualizar
  cases h : q.activa <;> simp [h]

theorem actualizar_rastro (sqrtf : α → α) (g : Parametros α) (q : Particula α)
    (planeta agujero : Vector3 α) (h : q.activa = true) :
    (q.actualizar sqrtf g planeta agujero).rastro =
      if MAX_TRAIL < q.rastro.length + 1
      then ((q.actualizar sqrtf g planeta agujero).pos :: q.rastro).dropLast
      else (q.actualizar sqrtf g planeta agujero).pos :: q.rastro := by
  unfold Particula.actualizar
  simp [h]

theorem actualizar_rastro_length (sqrtf : α → α) (g : Parametros α) (q : Particula α)
    (planeta agujero : Vector3 α) (h : q.activa = true) (hl : q.rastro.length ≤ MAX_TRAIL) :
    (q.actualizar sqrtf g planeta agujero).rastro.length =
      if q.rastro.length < MAX_TRAIL then q.rastro.length + 1 else MAX_TRAIL := by
  rw [actualizar_rastro sqrtf g q planeta agujero h]
  by_cases hlt : q.rastro.length < MAX_TRAIL
  · have : ¬ MAX_TRAIL < q.rastro.length + 1 := by omega
    simp [this, hlt]
  · have h1 : MAX_TRAIL < q.rastro.length + 1 := by omega
    simp [h1, hlt]
    omega

theorem pasos_snoc (sqrtf : α → α) (q : Particula α)
    (entorno : List (Parametros α × Vector3 α × Vector3 α))
    (e : Parametros α × Vector3 α × Vector3 α) :
    q.pasos sqrtf (entorno ++ [e]) = (q.pasos sqrtf entorno).actualizar sqrtf e.1 e.2.1 e.2.2 := by
  simp [Particula.pasos, List.foldl_append]

theorem pasos_invariante (sqrtf : α → α) (p0 : Particula α) (p v : Vector3 α) (c : Color)
    (t : Int) (entorno : List (Parametros α × Vector3 α × Vector3 α)) :
    ((p0.reset p v c t).pasos sqrtf entorno).activa = true ∧
      1 ≤ ((p0.reset p v c t).pasos sqrtf entorno).rastro.length ∧
      ((p0.reset p v c t).pasos sqrtf entorno).rastro.length ≤ MAX_TRAIL := by
  induction entorno using List.reverseRecOn with
  | nil => simp [Particula.pasos, Particula.reset, MAX_TRAIL]
  | append_singleton l e ih =>
    obtain ⟨ha, h1, h2⟩ := ih
    rw [pasos_snoc]
    refine ⟨by rw [actualizar_activa]; exact ha, ?_, ?_⟩
    · rw [actualizar_rastro_length sqrtf _ _ _ _ ha h2]
      split <;> simp [MAX_TRAIL]
    · rw [actualizar_rastro_length sqrtf _ _ _ _ ha h2]
      split <;> omega

/-- C3. In every state reachable from `reset` by `actualizar` steps the trail has
between 1 and 50 elements, and one more step raises its length by exactly one while
it is below 50 and leaves it at 50 otherwise. -/
theorem rastro_acotado (sqrtf : α → α) (p0 : Particula α) (p v : Vector3 α) (c : Color)
    (t : Int) (entorno : List (Parametros α × Vector3 α × Vector3 α)) :
    (1 ≤ ((p0.reset p v c t).pasos sqrtf entorno).rastro.length ∧
      ((p0.reset p v c t).pasos sqrtf entorno).rastro.length ≤ 50) ∧
    ∀ (g : Parametros α) (planeta agujero : Vector3 α),
      (((p0.reset p v c t).pasos sqrtf entorno).actualizar sqrtf g planeta agujero).rastro.length
        = if ((p0.reset p v c t).pasos sqrtf entorno).rastro.length < 50
          then ((p0.reset p v c t).pasos sqrtf entorno).rastro.length + 1 else 50 := by
  obtain ⟨ha, h1, h2⟩ := pasos_invariante sqrtf p0 p v c t entorno
  refine ⟨⟨h1, h2⟩, ?_⟩
  intro g planeta agujero
  exact actualizar_rastro_length sqrtf g _ planeta agujero ha h2

/-- C4. `reset` leaves the trail `[p]`; on an active particle whose trail has at most
50 elements, `actualizar` yields the new position followed by the first
`min (length) 49` old elements, in their order. -/
theorem rastro_mas_reciente_primero (sqrtf : α → α) :
    (∀ (p0 : Particula α) (p v : Vector3 α) (c : Color) (t : Int),
      (p0.reset p v c t).rastro = [p] ∧ (p0.reset p v c t).pos = p) ∧
    (∀ (q : Particula α) (g : Parametros α) (planeta agujero : Vector3 α),
      q.activa = true → q.rastro.length ≤ 50 →
      (q.actualizar sqrtf g planeta agujero).rastro =
        (q.actualizar sqrtf g planeta agujero).pos ::
          q.rastro.take (min q.rastro.length 49)) := by
  refine ⟨fun p0 p v c t => ⟨rfl, rfl⟩, ?_⟩
  intro q g planeta agujero ha hl
  rw [actualizar_rastro sqrtf g q planeta agujero ha]
  by_cases hlt : q.rastro.length < 50
  · have h1 : ¬ MAX_TRAIL < q.rastro.length + 1 := by simp [MAX_TRAIL]; omega
    have h2 : min q.rastro.length 49 = q.rastro.length := by omega
    rw [if_neg h1, h2, List.take_length]
  · have h1 : MAX_TRAIL < q.rastro.length + 1 := by simp [MAX_TRAIL]; omega
    have h2 : min q.rastro.length 49 = q.rastro.length - 1 := by omega
    have hne : q.rastro ≠ [] := by
      intro h; rw [h] at hlt; simp at hlt
    rw [if_pos h1, h2, List.dropLast_cons_of_ne_nil hne, List.dropLast_eq_take]

theorem rastro_mas_reciente_primero_witness :
    ((particulaFlujo : Particula ℝ).activa = true ∧
      (particulaFlujo : Particula ℝ).rastro.length ≤ 50) ∧
    ((particulaFlujo : Particula ℝ).actualizar Real.sqrt ⟨10, 28, 8 / 3, 0.01, 0.04, 8⟩
        ⟨-1, -1, 27⟩ ⟨1, 1, 27⟩).rastro =
      ((particulaFlujo : Particula ℝ).actualizar Real.sqrt ⟨10, 28, 8 / 3, 0.01, 0.04, 8⟩
        ⟨-1, -1, 27⟩ ⟨1, 1, 27⟩).pos ::
        (particulaFlujo : Particula ℝ).rastro.take
          (min (particulaFlujo : Particula ℝ).rastro.length 49) :=
  ⟨⟨rfl, by simp [particulaFlujo, Particula.reset]⟩,
    (rastro_mas_reciente_primero Real.sqrt).2 particulaFlujo ⟨10, 28, 8 / 3, 0.01, 0.04, 8⟩
      ⟨-1, -1, 27⟩ ⟨1, 1, 27⟩ rfl (by simp [particulaFlujo, Particula.reset])⟩

/-- C5. `reset` sets `vida` to 0; `actualizar` on an active particle sets `vida` to the
old value plus `dt`, so with `dt > 0` the age strictly increases at every step. -/
theorem ley_de_edad (sqrtf : α → α) :
    (∀ (p0 : Particula α) (p v : Vector3 α) (c : Color) (t : Int),
      (p0.reset p v c t).vida = 0) ∧
    (∀ (q : Particula α) (g : Parametros α) (planeta agujero : Vector3 α),
      q.activa = true →
      (q.actualizar sqrtf g planeta agujero).vida = q.vida + g.dt ∧
      (0 < g.dt → q.vida < (q.actualizar sqrtf g planeta agujero).vida)) := by
  refine ⟨fun p0 p v c t => rfl, ?_⟩
  intro q g planeta agujero ha
  have h : (q.actualizar sqrtf g planeta agujero).vida = q.vida + g.dt := by
    unfold Particula.actualizar
    simp [ha]
  exact ⟨h, fun hdt => by rw [h]; exact lt_add_of_pos_right _ hdt⟩

theorem ley_de_edad_witness :
    ((particulaFlujo : Particula ℝ).activa = true ∧ (0 : ℝ) < 0.01) ∧
    (particulaFlujo : Particula ℝ).vida <
      ((particulaFlujo : Particula ℝ).actualizar Real.sqrt ⟨10, 28, 8 / 3, 0.01, 0.04, 8⟩
        ⟨-1, -1, 27⟩ ⟨1, 1, 27⟩).vida :=
  ⟨⟨rfl, by norm_num⟩,
    ((ley_de_edad Real.sqrt).2 particulaFlujo ⟨10, 28, 8 / 3, 0.01, 0.04, 8⟩
      ⟨-1, -1, 27⟩ ⟨1, 1, 27⟩ rfl).2 (by norm_num)⟩

/-! ### The pool -/

theorem forall_mem_modify {β : Type} {P : β → Prop} (f : β → β) (n : Nat) (l : List β)
    (hl : ∀ q ∈ l, P q) (hf : ∀ q, P q → P (f q)) : ∀ q ∈ l.modify f n, P q := by
  intro q hq
  obtain ⟨m, hm, rfl⟩ := List.mem_iff_getElem.mp hq
  rw [List.getElem_modify]
  have hm' : m < l.length := by simpa using hm
  split
  · exact hf _ (hl _ (List.getElem_mem hm'))
  · exact hl _ (List.getElem_mem hm')

theorem bucle_succ {β : Type} (f : Nat → β → β) (n : Nat) (a : β) :
    Nat.fold f (n + 1) a = f n (Nat.fold f n a) := rfl

theorem resize_length (l : List (Particula α)) (n : Nat) : (resize l n).length = n := by
  simp [resize]
  omega

theorem spawn_eq [FloorRing α] (sqrtf sinf cosf : α → α) (DEG2RAD : α) (s : Sistema α)
    (r : Sorteo) (idx : Nat) :
    ∃ f : Particula α → Particula α, (∀ q, (f q).activa = true) ∧
      s.spawn sqrtf sinf cosf DEG2RAD r idx = { s with particulas := s.particulas.modify f idx } := by
  unfold Sistema.spawn
  by_cases h : spawnTipo r.tipo = 0
  · simp only [h, if_true]
    exact ⟨_, fun q => rfl, rfl⟩
  · simp only [h, if_false]
    exact ⟨_, fun q => rfl, rfl⟩

/-- The loop of `init`: after `k` iterations the pool keeps its size and its first
`k` slots are active. -/
theorem init_bucle [FloorRing α] (sqrtf sinf cosf : α → α) (DEG2RAD : α)
    (sorteos : Nat → Sorteo) (s : Sistema α) (k : Nat) :
    (Nat.fold (fun i s => Sistema.spawn sqrtf sinf cosf DEG2RAD s (sorteos i) i) k s).particulas.length
        = s.particulas.length ∧
    ∀ j (hj : j < (Nat.fold (fun i s => Sistema.spawn sqrtf sinf cosf DEG2RAD s (sorteos i) i)
        k s).particulas.length), j < k →
      ((Nat.fold (fun i s => Sistema.spawn sqrtf sinf cosf DEG2RAD s (sorteos i) i)
        k s).particulas[j]).activa = true := by
  induction k with
  | zero => exact ⟨rfl, fun j _ hj => absurd hj (Nat.not_lt_zero j)⟩
  | succ k ih =>
    obtain ⟨hlen, hact⟩ := ih
    rw [bucle_succ]
    obtain ⟨f, hf, heq⟩ := spawn_eq sqrtf sinf cosf DEG2RAD
      (Nat.fold (fun i s => Sistema.spawn sqrtf sinf cosf DEG2RAD s (sorteos i) i) k s)
      (sorteos k) k
    rw [heq]
    refine ⟨by simpa using hlen, ?_⟩
    intro j hj hjk
    simp only [List.getElem_modify]
    split
    · exact hf _
    · next hne =>
      have hj' : j < k := by omega
      exact hact j (by simpa using hj) hj'

theorem init_pool [FloorRing α] (sqrtf sinf cosf : α → α) (DEG2RAD : α) (g : Parametros α)
    (sorteos : Nat → Sorteo) (s : Sistema α) :
    (s.init sqrtf sinf cosf DEG2RAD g sorteos).particulas.length = MAX_PARTICULAS ∧
    ∀ q ∈ (s.init sqrtf sinf cosf DEG2RAD g sorteos).particulas, q.activa = true := by
  unfold Sistema.init
  obtain ⟨hlen, hact⟩ := init_bucle sqrtf sinf cosf DEG2RAD sorteos
    (Sistema.calcularFocos sqrtf g { s with particulas := resize s.particulas MAX_PARTICULAS })
    MAX_PARTICULAS
  have hlen' : (Nat.fold (fun i s => Sistema.spawn sqrtf sinf cosf DEG2RAD s (sorteos i) i)
      MAX_PARTICULAS (Sistema.calcularFocos sqrtf g
        { s with particulas := resize s.particulas MAX_PARTICULAS })).particulas.length
      = MAX_PARTICULAS := by
    rw [hlen]
    exact resize_length _ _
  refine ⟨hlen', ?_⟩
  intro q hq
  obtain ⟨m, hm, rfl⟩ := List.mem_iff_getElem.mp hq
  exact hact m hm (by rw [hlen'] at hm; exact hm)

theorem updatePaso_pool [FloorRing α] (sqrtf sinf cosf : α → α) (DEG2RAD : α)
    (g : Parametros α) (sorteos : Nat → Sorteo) (i : Nat) (s : Sistema α)
    (hact : ∀ q ∈ s.particulas, q.activa = true) :
    (s.updatePaso sqrtf sinf cosf DEG2RAD g sorteos i).particulas.length = s.particulas.length ∧
    ∀ q ∈ (s.updatePaso sqrtf sinf cosf DEG2RAD g sorteos i).particulas, q.activa = true := by
  have h1 : ∀ q ∈ s.particulas.modify (fun q => q.actualizar sqrtf g s.planeta s.agujero) i,
      q.activa = true :=
    forall_mem_modify _ i s.particulas hact (fun q hq => by rw [actualizar_activa]; exact hq)
  unfold Sistema.updatePaso
  simp only
  split
  · split
    · obtain ⟨f, hf, heq⟩ := spawn_eq sqrtf sinf cosf DEG2RAD
        { s with particulas :=
            s.particulas.modify (fun q => q.actualizar sqrtf g s.planeta s.agujero) i }
        (sorteos i) i
      rw [heq]
      exact ⟨by simp, forall_mem_modify f i _ h1 (fun q _ => hf q)⟩
    · exact ⟨by simp, h1⟩
  · exact ⟨by simp, h1⟩

theorem update_pool [FloorRing α] (sqrtf sinf cosf : α → α) (DEG2RAD : α)
    (g : Parametros α) (sorteos : Nat → Sorteo) (s : Sistema α)
    (hact : ∀ q ∈ s.particulas, q.activa = true) :
    (s.update sqrtf sinf cosf DEG2RAD g sorteos).particulas.length = s.particulas.length ∧
    ∀ q ∈ (s.update sqrtf sinf cosf DEG2RAD g sorteos).particulas, q.activa = true := by
  unfold Sistema.update
  simp only
  generalize MAX_PARTICULAS = n
  induction n with
  | zero => exact ⟨rfl, hact⟩
  | succ n ih =>
    rw [bucle_succ]
    obtain ⟨h1, h2⟩ := updatePaso_pool sqrtf sinf cosf DEG2RAD g sorteos n _ ih.2
    exact ⟨h1.trans ih.1, h2⟩

/-- C2. After `init`, and after any number of `update` ticks with arbitrary parameter
values and draws, the pool holds exactly 500 particles, all of them active. -/
theorem pool_invariante [FloorRing α] (sqrtf sinf cosf : α → α) (DEG2RAD : α)
    (g0 : Parametros α) (sorteos0 : Nat → Sorteo) (s0 : Sistema α)
    (ticks : List (Parametros α × (Nat → Sorteo))) :
    ((s0.init sqrtf sinf cosf DEG2RAD g0 sorteos0).correr sqrtf sinf cosf DEG2RAD
        ticks).particulas.length = 500 ∧
    (∀ q ∈ ((s0.init sqrtf sinf cosf DEG2RAD g0 sorteos0).correr sqrtf sinf cosf DEG2RAD
        ticks).particulas, q.activa = true) ∧
    ((s0.init sqrtf sinf cosf DEG2RAD g0 sorteos0).correr sqrtf sinf cosf DEG2RAD
        ticks).particulas.countP (fun q => !q.activa) = 0 := by
  have key : ((s0.init sqrtf sinf cosf DEG2RAD g0 sorteos0).correr sqrtf sinf cosf DEG2RAD
        ticks).particulas.length = 500 ∧
      (∀ q ∈ ((s0.init sqrtf sinf cosf DEG2RAD g0 sorteos0).correr sqrtf sinf cosf DEG2RAD
        ticks).particulas, q.activa = true) := by
    induction ticks using List.reverseRecOn with
    | nil => exact init_pool sqrtf sinf cosf DEG2RAD g0 sorteos0 s0
    | append_singleton l t ih =>
      have hstep : (s0.init sqrtf sinf cosf DEG2RAD g0 sorteos0).correr sqrtf sinf cosf DEG2RAD
          (l ++ [t]) =
          ((s0.init sqrtf sinf cosf DEG2RAD g0 sorteos0).correr sqrtf sinf cosf DEG2RAD
            l).update sqrtf sinf cosf DEG2RAD t.1 t.2 := by
        simp [Sistema.correr, List.foldl_append]
      rw [hstep]
      obtain ⟨h1, h2⟩ := update_pool sqrtf sinf cosf DEG2RAD t.1 t.2 _ ih.2
      exact ⟨h1.trans ih.1, h2⟩
  refine ⟨key.1, key.2, ?_⟩
  rw [List.countP_eq_zero]
  intro q hq
  simp [key.2 q hq]

/-! ### Damping -/

theorem longitud_le {v : Vector3 ℝ} {c : ℝ} (hc : 0 ≤ c)
    (h : v.x * v.x + v.y * v.y + v.z * v.z ≤ c ^ 2) : Vector3Length Real.sqrt v ≤ c := by
  unfold Vector3Length
  exact Real.sqrt_le_iff.mpr ⟨hc, h⟩

theorem longitud_escala (v : Vector3 ℝ) {c : ℝ} (hc : 0 ≤ c) :
    Vector3Length Real.sqrt (Vector3Scale v c) = c * Vector3Length Real.sqrt v := by
  unfold Vector3Length Vector3Scale
  have h : v.x * c * (v.x * c) + v.y * c * (v.y * c) + v.z * c * (v.z * c)
      = c ^ 2 * (v.x * v.x + v.y * v.y + v.z * v.z) := by ring
  simp only [h]
  rw [Real.sqrt_mul (sq_nonneg c), Real.sqrt_sq hc]

/-- With no Lorenz weight, no spin strength and both gravity gates closed, the net
acceleration returned by `evaluar` vanishes. -/
theorem evaluar_sin_fuerza (sqrtf : α → α) (g : Parametros α) (q : Particula α)
    (planeta agujero p v : Vector3 α) (hL : g.factorLorenz = 0) (hS : g.fuerzaSpin = 0)
    (hA : Vector3Length sqrtf (Vector3Subtract agujero p) ≤ 1)
    (hP : Vector3Length sqrtf (Vector3Subtract planeta p) ≤ 0.5) :
    q.evaluar sqrtf g planeta agujero p v = (v, ⟨0, 0, 0⟩) := by
  have hA' : ¬ Vector3Length sqrtf (Vector3Subtract agujero p) > 1.0 := by
    norm_num; exact hA
  have hP' : ¬ Vector3Length sqrtf (Vector3Subtract planeta p) > 0.5 := not_lt.mpr hP
  unfold Particula.evaluar Particula.calcularFuerzas
  simp only [hA', hP', hL, hS, if_false]
  simp [Vector3Add, Vector3Scale]

/-- C6. If the net acceleration of all four RK4 stages is the zero vector, one
`actualizar` step on an active particle multiplies the velocity by exactly 0.99, and
so its magnitude. -/
theorem ley_de_amortiguacion (q : Particula ℝ) (g : Parametros ℝ) (planeta agujero : Vector3 ℝ)
    (ha : q.activa = true)
    (h1 : (q.etapas Real.sqrt g planeta agujero).k1_v = ⟨0, 0, 0⟩)
    (h2 : (q.etapas Real.sqrt g planeta agujero).k2_v = ⟨0, 0, 0⟩)
    (h3 : (q.etapas Real.sqrt g planeta agujero).k3_v = ⟨0, 0, 0⟩)
    (h4 : (q.etapas Real.sqrt g planeta agujero).k4_v = ⟨0, 0, 0⟩) :
    (q.actualizar Real.sqrt g planeta agujero).vel = Vector3Scale q.vel 0.99 ∧
    Vector3Length Real.sqrt (q.actualizar Real.sqrt g planeta agujero).vel
      = 0.99 * Vector3Length Real.sqrt q.vel := by
  have hv : (q.actualizar Real.sqrt g planeta agujero).vel = Vector3Scale q.vel 0.99 := by
    unfold Particula.actualizar
    simp [ha, h1, h2, h3, h4, Vector3Add, Vector3Scale]
  exact ⟨hv, by rw [hv, longitud_escala _ (by norm_num)]⟩

theorem ley_de_amortiguacion_witness :
    ((particulaLibre : Particula ℝ).activa = true ∧
      ((particulaLibre : Particula ℝ).etapas Real.sqrt parametrosSinFuerza
        ⟨0, 0, 0⟩ ⟨0, 0, 0⟩).k1_v = ⟨0, 0, 0⟩ ∧
      ((particulaLibre : Particula ℝ).etapas Real.sqrt parametrosSinFuerza
        ⟨0, 0, 0⟩ ⟨0, 0, 0⟩).k2_v = ⟨0, 0, 0⟩ ∧
      ((particulaLibre : Particula ℝ).etapas Real.sqrt parametrosSinFuerza
        ⟨0, 0, 0⟩ ⟨0, 0, 0⟩).k3_v = ⟨0, 0, 0⟩ ∧
      ((particulaLibre : Particula ℝ).etapas Real.sqrt parametrosSinFuerza
        ⟨0, 0, 0⟩ ⟨0, 0, 0⟩).k4_v = ⟨0, 0, 0⟩) ∧
    ((particulaLibre : Particula ℝ).actualizar Real.sqrt parametrosSinFuerza
        ⟨0, 0, 0⟩ ⟨0, 0, 0⟩).vel = ⟨0.099, 0, 0⟩ := by
  have hev : ∀ p v : Vector3 ℝ, p.x * p.x ≤ 0.25 → p.y = 0 → p.z = 0 →
      (particulaLibre : Particula ℝ).evaluar Real.sqrt parametrosSinFuerza
        ⟨0, 0, 0⟩ ⟨0, 0, 0⟩ p v = (v, ⟨0, 0, 0⟩) := by
    intro p v hx hy hz
    apply evaluar_sin_fuerza
    · norm_num [parametrosSinFuerza]
    · norm_num [parametrosSinFuerza]
    · apply longitud_le (by norm_num)
      simp [Vector3Subtract, hy, hz]
      linarith
    · apply longitud_le (by norm_num)
      simp [Vector3Subtract, hy, hz]
      norm_num
      linarith
  have hpos : (particulaLibre : Particula ℝ).pos = ⟨0, 0, 0⟩ := rfl
  have hvel : (particulaLibre : Particula ℝ).vel = ⟨0.1, 0, 0⟩ := rfl
  have hdt : (parametrosSinFuerza : Parametros ℝ).dt = 0.01 := rfl
  have e1 := hev ⟨0, 0, 0⟩ ⟨0.1, 0, 0⟩ (by norm_num) rfl rfl
  have e2 := hev ⟨0.0005, 0, 0⟩ ⟨0.1, 0, 0⟩ (by norm_num) rfl rfl
  have e4 := hev ⟨0.001, 0, 0⟩ ⟨0.1, 0, 0⟩ (by norm_num) rfl rfl
  have ht2 : Vector3Add (⟨0, 0, 0⟩ : Vector3 ℝ) (Vector3Scale ⟨0.1, 0, 0⟩ (0.01 * 0.5))
      = ⟨0.0005, 0, 0⟩ := by
    simp [Vector3Add, Vector3Scale]; norm_num
  have ht4 : Vector3Add (⟨0, 0, 0⟩ : Vector3 ℝ) (Vector3Scale ⟨0.1, 0, 0⟩ 0.01)
      = ⟨0.001, 0, 0⟩ := by
    simp [Vector3Add, Vector3Scale]; norm_num
  have hv0 : ∀ c : ℝ, Vector3Add (⟨0.1, 0, 0⟩ : Vector3 ℝ) (Vector3Scale ⟨0, 0, 0⟩ c)
      = ⟨0.1, 0, 0⟩ := by
    intro c; simp [Vector3Add, Vector3Scale]
  have hk : (particulaLibre : Particula ℝ).etapas Real.sqrt parametrosSinFuerza
      ⟨0, 0, 0⟩ ⟨0, 0, 0⟩ =
      { k1_p := ⟨0.1, 0, 0⟩, k2_p := ⟨0.1, 0, 0⟩, k3_p := ⟨0.1, 0, 0⟩, k4_p := ⟨0.1, 0, 0⟩,
        k1_v := ⟨0, 0, 0⟩, k2_v := ⟨0, 0, 0⟩, k3_v := ⟨0, 0, 0⟩, k4_v := ⟨0, 0, 0⟩ } := by
    unfold Particula.etapas
    simp only [hpos, hvel, hdt, e1, ht2, hv0, e2, ht4, e4]
  have hk1 := congrArg EtapasRK4.k1_v hk
  have hk2 := congrArg EtapasRK4.k2_v hk
  have hk3 := congrArg EtapasRK4.k3_v hk
  have hk4 := congrArg EtapasRK4.k4_v hk
  refine ⟨⟨rfl, hk1, hk2, hk3, hk4⟩, ?_⟩
  rw [(ley_de_amortiguacion particulaLibre parametrosSinFuerza ⟨0, 0, 0⟩ ⟨0, 0, 0⟩ rfl
    hk1 hk2 hk3 hk4).1, hvel]
  simp [Vector3Scale]; norm_num

/-! ### The foci -/

theorem calcularFocos_planeta (g : Parametros ℝ) (s : Sistema ℝ) :
    (s.calcularFocos Real.sqrt g).planeta =
      ⟨-Real.sqrt (max 0 (g.beta * (g.rho - 1))), -Real.sqrt (max 0 (g.beta * (g.rho - 1))),
        g.rho - 1⟩ := by
  unfold Sistema.calcularFocos
  norm_num

theorem calcularFocos_agujero (g : Parametros ℝ) (s : Sistema ℝ) :
    (s.calcularFocos Real.sqrt g).agujero =
      ⟨Real.sqrt (max 0 (g.beta * (g.rho - 1))), Real.sqrt (max 0 (g.beta * (g.rho - 1))),
        g.rho - 1⟩ := by
  unfold Sistema.calcularFocos
  norm_num

theorem radio_focos_eq_zero (g : Parametros ℝ) :
    Real.sqrt (max 0 (g.beta * (g.rho - 1))) = 0 ↔ g.beta * (g.rho - 1) ≤ 0 := by
  rw [Real.sqrt_eq_zero']
  constructor
  · intro h; exact le_trans (le_max_right _ _) h
  · intro h; exact max_le le_rfl h

/-- C7. `calcularFocos` yields `planeta = (-b, -b, rho-1)` and `agujero = (b, b, rho-1)`
with `b = sqrt (max 0 (beta*(rho-1)))`; the foci differ when `beta*(rho-1) > 0` and
coincide, both at `(0, 0, rho-1)`, exactly when `beta*(rho-1) ≤ 0`. -/
theorem focos_distintos (g : Parametros ℝ) (s : Sistema ℝ) :
    ((s.calcularFocos Real.sqrt g).planeta =
        ⟨-Real.sqrt (max 0 (g.beta * (g.rho - 1))), -Real.sqrt (max 0 (g.beta * (g.rho - 1))),
          g.rho - 1⟩ ∧
      (s.calcularFocos Real.sqrt g).agujero =
        ⟨Real.sqrt (max 0 (g.beta * (g.rho - 1))), Real.sqrt (max 0 (g.beta * (g.rho - 1))),
          g.rho - 1⟩) ∧
    (g.beta * (g.rho - 1) > 0 →
      (s.calcularFocos Real.sqrt g).planeta ≠ (s.calcularFocos Real.sqrt g).agujero) ∧
    ((s.calcularFocos Real.sqrt g).planeta = (s.calcularFocos Real.sqrt g).agujero ↔
      g.beta * (g.rho - 1) ≤ 0) ∧
    (g.beta * (g.rho - 1) ≤ 0 →
      (s.calcularFocos Real.sqrt g).planeta = ⟨0, 0, g.rho - 1⟩ ∧
      (s.calcularFocos Real.sqrt g).agujero = ⟨0, 0, g.rho - 1⟩) := by
  have hiff : (s.calcularFocos Real.sqrt g).planeta = (s.calcularFocos Real.sqrt g).agujero ↔
      g.beta * (g.rho - 1) ≤ 0 := by
    rw [calcularFocos_planeta, calcularFocos_agujero, ← radio_focos_eq_zero]
    constructor
    · intro h
      have hx := congrArg Vector3.x h
      simp only at hx
      linarith
    · intro h
      rw [h]; simp
  refine ⟨⟨calcularFocos_planeta g s, calcularFocos_agujero g s⟩, ?_, hiff, ?_⟩
  · intro hpos heq
    exact absurd (hiff.mp heq) (not_le.mpr hpos)
  · intro hle
    rw [calcularFocos_planeta, calcularFocos_agujero, (radio_focos_eq_zero g).mpr hle]
    simp

theorem focos_distintos_witness :
    (parametrosIniciales : Parametros ℝ).beta * ((parametrosIniciales : Parametros ℝ).rho - 1) > 0 ∧
    ((sistemaVacio : Sistema ℝ).calcularFocos Real.sqrt parametrosIniciales).planeta ≠
      ((sistemaVacio : Sistema ℝ).calcularFocos Real.sqrt parametrosIniciales).agujero :=
  ⟨by norm_num [parametrosIniciales],
    (focos_distintos parametrosIniciales sistemaVacio).2.1 (by norm_num [parametrosIniciales])⟩

/-- C8. For parameters inside the slider ranges (sigma in [1,30], rho in [1,50], beta
in [0.1,10]) both foci are zeros of the Lorenz field `lorenz`, and each is the image of
the other under `(x, y, z) ↦ (-x, -y, z)`. -/
theorem focos_puntos_fijos (g : Parametros ℝ) (s : Sistema ℝ)
    (_hs : 1 ≤ g.sigma ∧ g.sigma ≤ 30) (hr : 1 ≤ g.rho ∧ g.rho ≤ 50)
    (hb : 0.1 ≤ g.beta ∧ g.beta ≤ 10) :
    Particula.lorenz g (s.calcularFocos Real.sqrt g).planeta = ⟨0, 0, 0⟩ ∧
    Particula.lorenz g (s.calcularFocos Real.sqrt g).agujero = ⟨0, 0, 0⟩ ∧
    (s.calcularFocos Real.sqrt g).agujero =
      ⟨-(s.calcularFocos Real.sqrt g).planeta.x, -(s.calcularFocos Real.sqrt g).planeta.y,
        (s.calcularFocos Real.sqrt g).planeta.z⟩ ∧
    (s.calcularFocos Real.sqrt g).planeta =
      ⟨-(s.calcularFocos Real.sqrt g).agujero.x, -(s.calcularFocos Real.sqrt g).agujero.y,
        (s.calcularFocos Real.sqrt g).agujero.z⟩ := by
  have hbpos : 0 ≤ g.beta := le_trans (by norm_num) hb.1
  have hnn : 0 ≤ g.beta * (g.rho - 1) := mul_nonneg hbpos (by linarith [hr.1])
  have hsq : Real.sqrt (max 0 (g.beta * (g.rho - 1))) * Real.sqrt (max 0 (g.beta * (g.rho - 1)))
      = g.beta * (g.rho - 1) := by
    rw [max_eq_right hnn, Real.mul_self_sqrt hnn]
  rw [calcularFocos_planeta, calcularFocos_agujero]
  refine ⟨?_, ?_, ?_, ?_⟩
  · simp only [Particula.lorenz, Vector3.mk.injEq]
    refine ⟨by ring, by ring, ?_⟩
    linear_combination hsq
  · simp only [Particula.lorenz, Vector3.mk.injEq]
    refine ⟨by ring, by ring, ?_⟩
    linear_combination hsq
  · simp
  · simp

theorem focos_puntos_fijos_witness :
    ((1 ≤ (parametrosIniciales : Parametros ℝ).sigma ∧
        (parametrosIniciales : Parametros ℝ).sigma ≤ 30) ∧
      (1 ≤ (parametrosIniciales : Parametros ℝ).rho ∧
        (parametrosIniciales : Parametros ℝ).rho ≤ 50) ∧
      (0.1 ≤ (parametrosIniciales : Parametros ℝ).beta ∧
        (parametrosIniciales : Parametros ℝ).beta ≤ 10)) ∧
    Particula.lorenz (parametrosIniciales : Parametros ℝ)
      ((sistemaVacio : Sistema ℝ).calcularFocos Real.sqrt parametrosIniciales).planeta
      = ⟨0, 0, 0⟩ :=
  ⟨⟨by norm_num [parametrosIniciales], by norm_num [parametrosIniciales],
      by norm_num [parametrosIniciales]⟩,
    (focos_puntos_fijos parametrosIniciales sistemaVacio (by norm_num [parametrosIniciales])
      (by norm_num [parametrosIniciales]) (by norm_num [parametrosIniciales])).1⟩

/-! ### Spawn -/

/-- C9. Of the 101 values `GetRandomValue(0, 100)` can return, 20 (those below 20)
yield tipo 1 and 81 yield tipo 0: the orbit share is 20/101, not one fifth. -/
theorem spawnTipo_conteo :
    (GetRandomValueRango 0 100).card = 101 ∧
    ((GetRandomValueRango 0 100).filter (fun k => spawnTipo k = 1)).card = 20 ∧
    ((GetRandomValueRango 0 100).filter (fun k => spawnTipo k = 0)).card = 81 ∧
    5 * ((GetRandomValueRango 0 100).filter (fun k => spawnTipo k = 1)).card
      ≠ (GetRandomValueRango 0 100).card ∧
    spawnTipo 100 = 0 := by
  decide

theorem normalizar_de (v : Vector3 ℝ) (L : ℝ) (hL : 0 < L)
    (h : v.x * v.x + v.y * v.y + v.z * v.z = L * L) :
    Vector3Normalize Real.sqrt v = ⟨v.x / L, v.y / L, v.z / L⟩ := by
  unfold Vector3Normalize
  simp only [h, Real.sqrt_mul_self hL.le]
  rw [if_pos hL.ne']
  simp [div_eq_mul_inv]

theorem normalizar_cero (v : Vector3 ℝ) (h : v.x * v.x + v.y * v.y + v.z * v.z = 0) :
    Vector3Normalize Real.sqrt v = v := by
  unfold Vector3Normalize
  simp [h]

theorem raiz_dos_cuadrado : Real.sqrt 2 * Real.sqrt 2 = 2 :=
  Real.mul_self_sqrt (by norm_num)

/-- With distinct foci `(-b, -b, z)` and `(b, b, z)` the axis direction `dir` is
`(1/√2, 1/√2, 0)`. -/
theorem spawnDir_focos {b z : ℝ} (hb : 0 < b) :
    spawnDir Real.sqrt ⟨-b, -b, z⟩ ⟨b, b, z⟩ = ⟨1 / Real.sqrt 2, 1 / Real.sqrt 2, 0⟩ := by
  have h2 : 0 < Real.sqrt 2 := Real.sqrt_pos.mpr (by norm_num)
  unfold spawnDir
  rw [normalizar_de _ (2 * b * Real.sqrt 2) (by positivity)]
  · simp only [Vector3Subtract, Vector3.mk.injEq]
    refine ⟨?_, ?_, ?_⟩
    · field_simp; ring
    · field_simp; ring
    · simp
  · simp only [Vector3Subtract]
    linear_combination (-(4 * b ^ 2)) * raiz_dos_cuadrado

/-- For that axis the normalised `perp` is the vertical unit vector `(0, 0, 1)`. -/
theorem spawnPerp_focos :
    spawnPerp Real.sqrt ⟨1 / Real.sqrt 2, 1 / Real.sqrt 2, 0⟩ = ⟨0, 0, 1⟩ := by
  have h2 : 0 < Real.sqrt 2 := Real.sqrt_pos.mpr (by norm_num)
  have hlen : ¬ Vector3Length Real.sqrt ⟨-0, 0, 1 / Real.sqrt 2⟩ < 0.01 := by
    rw [not_lt]
    unfold Vector3Length
    rw [Real.le_sqrt (by norm_num) (by positivity)]
    have h : (1 / Real.sqrt 2) * (1 / Real.sqrt 2) = 1 / 2 := by
      rw [div_mul_div_comm, raiz_dos_cuadrado]; norm_num
    simp only [h]
    norm_num
  unfold spawnPerp
  simp only [hlen, if_false]
  rw [normalizar_de _ (1 / Real.sqrt 2) (by positivity) (by simp)]
  simp only [Vector3.mk.injEq]
  refine ⟨by simp, by simp, ?_⟩
  field_simp

theorem spawnPerpRot_focos (ang : ℝ) :
    spawnPerpRot Real.sin Real.cos ⟨0, 0, 1⟩ ang = ⟨-Real.sin ang, Real.sin ang, Real.cos ang⟩ := by
  simp [spawnPerpRot]

/-- C10. At the default parameters, an orbit spawn whose angle draw is 0 gets the zero
vector as `tangencial`: the spawned velocity is `1.5 * dir` alone and its tangential
part has magnitude 0, whereas `velOrbita = sqrt (200 / 4.0) * 1.0 = sqrt 50 > 0`. -/
theorem orbita_tangencial_nula :
    spawnTipo sorteoOrbita.tipo = 1 ∧
    spawnTangencial Real.sqrt
      (spawnPerpRot Real.sin Real.cos
        (spawnPerp Real.sqrt
          (spawnDir Real.sqrt
            ((sistemaUno : Sistema ℝ).calcularFocos Real.sqrt parametrosIniciales).planeta
            ((sistemaUno : Sistema ℝ).calcularFocos Real.sqrt parametrosIniciales).agujero))
        ((sorteoOrbita.ang : ℝ) * (Real.pi / 180))) = ⟨0, 0, 0⟩ ∧
    ((((sistemaUno : Sistema ℝ).calcularFocos Real.sqrt parametrosIniciales).spawn
        Real.sqrt Real.sin Real.cos (Real.pi / 180) sorteoOrbita 0).particulas.map
          (fun q => Vector3Length Real.sqrt
            (Vector3Subtract q.vel (Vector3Scale (spawnDir Real.sqrt
              ((sistemaUno : Sistema ℝ).calcularFocos Real.sqrt parametrosIniciales).planeta
              ((sistemaUno : Sistema ℝ).calcularFocos Real.sqrt parametrosIniciales).agujero)
              1.5)))) = [0] ∧
    spawnVelOrbita Real.sqrt (2.0 + (sorteoOrbita.radio : ℝ) / 100.0) sorteoOrbita.jitter
      = Real.sqrt 50 ∧
    0 < Real.sqrt 50 := by
  have hb : 0 < Real.sqrt (max 0 ((parametrosIniciales : Parametros ℝ).beta *
      ((parametrosIniciales : Parametros ℝ).rho - 1))) := by
    rw [Real.sqrt_pos]
    norm_num [parametrosIniciales]
  have hang : ((sorteoOrbita.ang : ℝ) * (Real.pi / 180)) = 0 := by
    simp [sorteoOrbita]
  have htan : spawnTangencial Real.sqrt
      (spawnPerpRot Real.sin Real.cos
        (spawnPerp Real.sqrt
          (spawnDir Real.sqrt
            ((sistemaUno : Sistema ℝ).calcularFocos Real.sqrt parametrosIniciales).planeta
            ((sistemaUno : Sistema ℝ).calcularFocos Real.sqrt parametrosIniciales).agujero))
        ((sorteoOrbita.ang : ℝ) * (Real.pi / 180))) = ⟨0, 0, 0⟩ := by
    rw [calcularFocos_planeta, calcularFocos_agujero, spawnDir_focos hb, spawnPerp_focos,
      spawnPerpRot_focos, hang]
    unfold spawnTangencial
    rw [normalizar_cero _ (by simp)]
    simp
  have hvel : spawnVelOrbita Real.sqrt (2.0 + (sorteoOrbita.radio : ℝ) / 100.0)
      sorteoOrbita.jitter = Real.sqrt 50 := by
    unfold spawnVelOrbita
    norm_num [sorteoOrbita]
  refine ⟨by decide, htan, ?_, hvel, Real.sqrt_pos.mpr (by norm_num)⟩
  have htipo : spawnTipo sorteoOrbita.tipo ≠ 0 := by decide
  unfold Sistema.spawn
  simp only [htipo, if_false, htan]
  simp [Sistema.calcularFocos, sistemaUno, List.modify, Particula.reset, Vector3Add,
    Vector3Scale, Vector3Subtract, Vector3Length]

/-! ### The integrator step -/

theorem evaluar_fst (sqrtf : α → α) (g : Parametros α) (q : Particula α)
    (planeta agujero p v : Vector3 α) : (q.evaluar sqrtf g planeta agujero p v).1 = v := rfl

/-- C15. If the net acceleration of all four RK4 stages is the same vector `a`, one
`actualizar` step on an active particle yields the position `x + dt*v + (dt^2/2)*a`
and the velocity `0.99 * (v + dt*a)`: the damping is applied once, after the
combination, and does not enter the position. -/
theorem rk4_aceleracion_constante (sqrtf : α → α) (q : Particula α) (g : Parametros α)
    (planeta agujero a : Vector3 α) (ha : q.activa = true)
    (h1 : (q.etapas sqrtf g planeta agujero).k1_v = a)
    (h2 : (q.etapas sqrtf g planeta agujero).k2_v = a)
    (h3 : (q.etapas sqrtf g planeta agujero).k3_v = a)
    (h4 : (q.etapas sqrtf g planeta agujero).k4_v = a) :
    (q.actualizar sqrtf g planeta agujero).pos =
      Vector3Add (Vector3Add q.pos (Vector3Scale q.vel g.dt)) (Vector3Scale a (g.dt ^ 2 / 2)) ∧
    (q.actualizar sqrtf g planeta agujero).vel =
      Vector3Scale (Vector3Add q.vel (Vector3Scale a g.dt)) 0.99 := by
  have k1 : (q.etapas sqrtf g planeta agujero).k1_p = q.vel := rfl
  have k2 : (q.etapas sqrtf g planeta agujero).k2_p =
      Vector3Add q.vel (Vector3Scale (q.etapas sqrtf g planeta agujero).k1_v (g.dt * 0.5)) := rfl
  have k3 : (q.etapas sqrtf g planeta agujero).k3_p =
      Vector3Add q.vel (Vector3Scale (q.etapas sqrtf g planeta agujero).k2_v (g.dt * 0.5)) := rfl
  have k4 : (q.etapas sqrtf g planeta agujero).k4_p =
      Vector3Add q.vel (Vector3Scale (q.etapas sqrtf g planeta agujero).k3_v g.dt) := rfl
  rw [h1] at k2
  rw [h2] at k3
  rw [h3] at k4
  unfold Particula.actualizar
  simp only [ha, Bool.not_true, Bool.false_eq_true, if_false, k1, k2, k3, k4, h1, h2, h3, h4]
  constructor
  · simp only [Vector3Add, Vector3Scale, Vector3.mk.injEq]
    refine ⟨?_, ?_, ?_⟩ <;> norm_num <;> ring
  · simp only [Vector3Add, Vector3Scale, Vector3.mk.injEq]
    refine ⟨?_, ?_, ?_⟩ <;> norm_num <;> ring

/-- With no spin strength and both gravity gates closed, the net acceleration returned
by `evaluar` is the weighted Lorenz drift alone. -/
theorem evaluar_solo_lorenz (sqrtf : α → α) (g : Parametros α) (q : Particula α)
    (planeta agujero p v : Vector3 α) (hS : g.fuerzaSpin = 0)
    (hA : Vector3Length sqrtf (Vector3Subtract agujero p) ≤ 1)
    (hP : Vector3Length sqrtf (Vector3Subtract planeta p) ≤ 0.5) :
    q.evaluar sqrtf g planeta agujero p v
      = (v, Vector3Scale (Particula.lorenz g p) g.factorLorenz) := by
  have hA' : ¬ Vector3Length sqrtf (Vector3Subtract agujero p) > 1.0 := by
    norm_num; exact hA
  have hP' : ¬ Vector3Length sqrtf (Vector3Subtract planeta p) > 0.5 := not_lt.mpr hP
  unfold Particula.evaluar Particula.calcularFuerzas
  simp only [hA', hP', hS, if_false]
  simp [Vector3Add, Vector3Scale]

/-- The stage values of `particulaAcelerada`: the acceleration is `(2, 2, 8/3)` at all
four stage points. -/
theorem etapas_particulaAcelerada :
    (particulaAcelerada : Particula ℝ).etapas Real.sqrt parametrosAcelerados
        focoAcelerado focoAcelerado =
      { k1_p := ⟨-1, -1, -(4 / 3)⟩, k2_p := ⟨0, 0, 0⟩, k3_p := ⟨0, 0, 0⟩,
        k4_p := ⟨1, 1, 4 / 3⟩,
        k1_v := ⟨2, 2, 8 / 3⟩, k2_v := ⟨2, 2, 8 / 3⟩, k3_v := ⟨2, 2, 8 / 3⟩,
        k4_v := ⟨2, 2, 8 / 3⟩ } := by
  have hev : ∀ p v : Vector3 ℝ,
      (7 / 4 - p.x) * (7 / 4 - p.x) + (15 / 4 - p.y) * (15 / 4 - p.y)
        + (95 / 99 - p.z) * (95 / 99 - p.z) ≤ 1 / 4 →
      (particulaAcelerada : Particula ℝ).evaluar Real.sqrt parametrosAcelerados
        focoAcelerado focoAcelerado p v
        = (v, Vector3Scale (Particula.lorenz parametrosAcelerados p) 1) := by
    intro p v hp
    have e := evaluar_solo_lorenz Real.sqrt (parametrosAcelerados : Parametros ℝ)
      particulaAcelerada focoAcelerado focoAcelerado p v rfl
      (longitud_le (by norm_num) (by
        simp only [Vector3Subtract, focoAcelerado]
        linarith))
      (longitud_le (by norm_num) (by
        simp only [Vector3Subtract, focoAcelerado]
        norm_num
        linarith))
    exact e
  have hpos : (particulaAcelerada : Particula ℝ).pos = ⟨2, 4, 128 / 99⟩ := rfl
  have hvel : (particulaAcelerada : Particula ℝ).vel = ⟨-1, -1, -(4 / 3)⟩ := rfl
  have hdt : (parametrosAcelerados : Parametros ℝ).dt = 1 := rfl
  have l1 : Vector3Scale (Particula.lorenz (parametrosAcelerados : Parametros ℝ)
      ⟨2, 4, 128 / 99⟩) 1 = ⟨2, 2, 8 / 3⟩ := by
    simp only [Particula.lorenz, Vector3Scale, parametrosAcelerados, Vector3.mk.injEq]
    refine ⟨?_, ?_, ?_⟩ <;> norm_num
  have l2 : Vector3Scale (Particula.lorenz (parametrosAcelerados : Parametros ℝ)
      ⟨3 / 2, 7 / 2, 62 / 99⟩) 1 = ⟨2, 2, 8 / 3⟩ := by
    simp only [Particula.lorenz, Vector3Scale, parametrosAcelerados, Vector3.mk.injEq]
    refine ⟨?_, ?_, ?_⟩ <;> norm_num
  have e1 := hev ⟨2, 4, 128 / 99⟩ ⟨-1, -1, -(4 / 3)⟩ (by norm_num)
  have e2 := hev ⟨3 / 2, 7 / 2, 62 / 99⟩ ⟨0, 0, 0⟩ (by norm_num)
  have e3 := hev ⟨2, 4, 128 / 99⟩ ⟨0, 0, 0⟩ (by norm_num)
  have e4 := hev ⟨2, 4, 128 / 99⟩ ⟨1, 1, 4 / 3⟩ (by norm_num)
  rw [l1] at e1 e3 e4
  rw [l2] at e2
  have t2p : Vector3Add (⟨2, 4, 128 / 99⟩ : Vector3 ℝ)
      (Vector3Scale ⟨-1, -1, -(4 / 3)⟩ (1 * 0.5)) = ⟨3 / 2, 7 / 2, 62 / 99⟩ := by
    simp only [Vector3Add, Vector3Scale, Vector3.mk.injEq]
    refine ⟨?_, ?_, ?_⟩ <;> norm_num
  have t2v : Vector3Add (⟨-1, -1, -(4 / 3)⟩ : Vector3 ℝ)
      (Vector3Scale ⟨2, 2, 8 / 3⟩ (1 * 0.5)) = ⟨0, 0, 0⟩ := by
    simp only [Vector3Add, Vector3Scale, Vector3.mk.injEq]
    refine ⟨?_, ?_, ?_⟩ <;> norm_num
  have t3p : ∀ c : ℝ, Vector3Add (⟨2, 4, 128 / 99⟩ : Vector3 ℝ)
      (Vector3Scale ⟨0, 0, 0⟩ c) = ⟨2, 4, 128 / 99⟩ := by
    intro c; simp [Vector3Add, Vector3Scale]
  have t4v : Vector3Add (⟨-1, -1, -(4 / 3)⟩ : Vector3 ℝ)
      (Vector3Scale ⟨2, 2, 8 / 3⟩ 1) = ⟨1, 1, 4 / 3⟩ := by
    simp only [Vector3Add, Vector3Scale, Vector3.mk.injEq]
    refine ⟨?_, ?_, ?_⟩ <;> norm_num
  unfold Particula.etapas
  simp only [hpos, hvel, hdt, e1, t2p, t2v, e2, t3p, e3, t4v, e4]

theorem rk4_aceleracion_constante_witness :
    ((particulaAcelerada : Particula ℝ).activa = true ∧
      ((particulaAcelerada : Particula ℝ).etapas Real.sqrt parametrosAcelerados
        focoAcelerado focoAcelerado).k1_v = ⟨2, 2, 8 / 3⟩ ∧
      ((particulaAcelerada : Particula ℝ).etapas Real.sqrt parametrosAcelerados
        focoAcelerado focoAcelerado).k2_v = ⟨2, 2, 8 / 3⟩ ∧
      ((particulaAcelerada : Particula ℝ).etapas Real.sqrt parametrosAcelerados
        focoAcelerado focoAcelerado).k3_v = ⟨2, 2, 8 / 3⟩ ∧
      ((particulaAcelerada : Particula ℝ).etapas Real.sqrt parametrosAcelerados
        focoAcelerado focoAcelerado).k4_v = ⟨2, 2, 8 / 3⟩) ∧
    ((particulaAcelerada : Particula ℝ).actualizar Real.sqrt parametrosAcelerados
        focoAcelerado focoAcelerado).pos = ⟨2, 4, 128 / 99⟩ ∧
    ((particulaAcelerada : Particula ℝ).actualizar Real.sqrt parametrosAcelerados
        focoAcelerado focoAcelerado).vel = ⟨0.99, 0.99, 1.32⟩ := by
  have hk1 := congrArg EtapasRK4.k1_v etapas_particulaAcelerada
  have hk2 := congrArg EtapasRK4.k2_v etapas_particulaAcelerada
  have hk3 := congrArg EtapasRK4.k3_v etapas_particulaAcelerada
  have hk4 := congrArg EtapasRK4.k4_v etapas_particulaAcelerada
  have hpos : (particulaAcelerada : Particula ℝ).pos = ⟨2, 4, 128 / 99⟩ := rfl
  have hvel : (particulaAcelerada : Particula ℝ).vel = ⟨-1, -1, -(4 / 3)⟩ := rfl
  have hdt : (parametrosAcelerados : Parametros ℝ).dt = 1 := rfl
  have h := rk4_aceleracion_constante Real.sqrt particulaAcelerada parametrosAcelerados
    focoAcelerado focoAcelerado ⟨2, 2, 8 / 3⟩ rfl hk1 hk2 hk3 hk4
  refine ⟨⟨rfl, hk1, hk2, hk3, hk4⟩, ?_, ?_⟩
  · rw [h.1, hpos, hvel, hdt]
    simp only [Vector3Add, Vector3Scale, Vector3.mk.injEq]
    refine ⟨?_, ?_, ?_⟩ <;> norm_num
  · rw [h.2, hvel, hdt]
    simp only [Vector3Add, Vector3Scale, Vector3.mk.injEq]
    refine ⟨?_, ?_, ?_⟩ <;> norm_num

/-- C16. The step `actualizar` never changes `activa`, `tipo` or `color`, and returns
an inactive particle as it is; `reset` is what sets `activa`, `tipo` and `color`. -/
theorem actualizar_marco (sqrtf : α → α) (q : Particula α) (g : Parametros α)
    (planeta agujero : Vector3 α) :
    ((q.actualizar sqrtf g planeta agujero).activa = q.activa ∧
      (q.actualizar sqrtf g planeta agujero).tipo = q.tipo ∧
      (q.actualizar sqrtf g planeta agujero).color = q.color) ∧
    (q.activa = false → q.actualizar sqrtf g planeta agujero = q) ∧
    (∀ (p v : Vector3 α) (c : Color) (t : Int),
      (q.reset p v c t).activa = true ∧ (q.reset p v c t).tipo = t ∧
        (q.reset p v c t).color = c) := by
  refine ⟨?_, ?_, fun p v c t => ⟨rfl, rfl, rfl⟩⟩
  · unfold Particula.actualizar
    cases h : q.activa <;> simp [h]
  · intro h
    unfold Particula.actualizar
    simp [h]

theorem actualizar_marco_witness :
    (Particula.nueva : Particula ℝ).activa = false ∧
    (Particula.nueva : Particula ℝ).actualizar Real.sqrt parametrosIniciales
      ⟨-1, -1, 27⟩ ⟨1, 1, 27⟩ = Particula.nueva :=
  ⟨rfl, (actualizar_marco Real.sqrt Particula.nueva parametrosIniciales
    ⟨-1, -1, 27⟩ ⟨1, 1, 27⟩).2.1 rfl⟩

/-! ### Sliders -/

omit [LinearOrderedField α] in
theorem leer_escribir (v : Global) (g : Parametros α) (x : α) :
    v.leer (v.escribir g x) = x := by
  cases v <;> rfl

omit [LinearOrderedField α] in
theorem leer_escribir_otro (v w : Global) (g : Parametros α) (x : α) (h : w ≠ v) :
    w.leer (v.escribir g x) = w.leer g := by
  cases v <;> cases w <;> first | rfl | exact absurd rfl h

theorem update_leer (sl : Slider α) (raton : Raton α) (g : Parametros α) :
    ∃ x : α, sl.val.leer (sl.update raton g) = max sl.minV (min sl.maxV x) := by
  unfold Slider.update
  exact ⟨_, leer_escribir _ _ _⟩

theorem update_otros (sl : Slider α) (raton : Raton α) (g : Parametros α) (w : Global)
    (h : w ≠ sl.val) : w.leer (sl.update raton g) = w.leer g := by
  unfold Slider.update
  simp only
  rw [leer_escribir_otro _ _ _ _ h]
  split
  · split
    · exact leer_escribir_otro _ _ _ _ h
    · rfl
  · rfl

theorem update_rango (sl : Slider α) (raton : Raton α) (g : Parametros α)
    (h : sl.minV ≤ sl.maxV) :
    sl.minV ≤ sl.val.leer (sl.update raton g) ∧ sl.val.leer (sl.update raton g) ≤ sl.maxV := by
  obtain ⟨x, hx⟩ := update_leer sl raton g
  rw [hx]
  exact ⟨le_max_left _ _, max_le h (min_le_left _ _)⟩

/-- C17. A slider with `minV ≤ maxV` leaves its bound global inside `[minV, maxV]`
after `update`, whatever the prior value and the mouse state; so after the slider
loop of a frame the six globals are inside their ranges when `sys.update()` reads
them. -/
theorem slider_acotado :
    (∀ (sl : Slider α) (raton : Raton α) (g : Parametros α), sl.minV ≤ sl.maxV →
      sl.minV ≤ sl.val.leer (sl.update raton g) ∧
        sl.val.leer (sl.update raton g) ≤ sl.maxV) ∧
    (∀ (raton : Raton α) (g : Parametros α),
      (1 ≤ (actualizarSliders raton g).sigma ∧ (actualizarSliders raton g).sigma ≤ 30) ∧
      (1 ≤ (actualizarSliders raton g).rho ∧ (actualizarSliders raton g).rho ≤ 50) ∧
      (0.1 ≤ (actualizarSliders raton g).beta ∧ (actualizarSliders raton g).beta ≤ 10) ∧
      (0.001 ≤ (actualizarSliders raton g).dt ∧ (actualizarSliders raton g).dt ≤ 0.05) ∧
      (0 ≤ (actualizarSliders raton g).factorLorenz ∧
        (actualizarSliders raton g).factorLorenz ≤ 0.5) ∧
      (0 ≤ (actualizarSliders raton g).fuerzaSpin ∧
        (actualizarSliders raton g).fuerzaSpin ≤ 20)) := by
  refine ⟨fun sl raton g h => update_rango sl raton g h, ?_⟩
  intro raton g
  have e : actualizarSliders raton g =
      (s6 : Slider α).update raton ((s5 : Slider α).update raton ((s4 : Slider α).update raton
        ((s3 : Slider α).update raton ((s2 : Slider α).update raton
          ((s1 : Slider α).update raton g))))) := rfl
  rw [e]
  have d1 : ∀ w : Global, w ≠ (s1 : Slider α).val ↔ w ≠ Global.sigma := fun _ => Iff.rfl
  have d2 : ∀ w : Global, w ≠ (s2 : Slider α).val ↔ w ≠ Global.rho := fun _ => Iff.rfl
  have d3 : ∀ w : Global, w ≠ (s3 : Slider α).val ↔ w ≠ Global.beta := fun _ => Iff.rfl
  have d4 : ∀ w : Global, w ≠ (s4 : Slider α).val ↔ w ≠ Global.dt := fun _ => Iff.rfl
  have d5 : ∀ w : Global, w ≠ (s5 : Slider α).val ↔ w ≠ Global.factorLorenz :=
    fun _ => Iff.rfl
  have d6 : ∀ w : Global, w ≠ (s6 : Slider α).val ↔ w ≠ Global.fuerzaSpin := fun _ => Iff.rfl
  refine ⟨?_, ?_, ?_, ?_, ?_, ?_⟩
  · have h := update_rango (s1 : Slider α) raton g (by norm_num [s1])
    show 1 ≤ Global.sigma.leer _ ∧ Global.sigma.leer _ ≤ 30
    rw [update_otros s6 _ _ _ ((d6 _).mpr (by decide)),
      update_otros s5 _ _ _ ((d5 _).mpr (by decide)),
      update_otros s4 _ _ _ ((d4 _).mpr (by decide)),
      update_otros s3 _ _ _ ((d3 _).mpr (by decide)),
      update_otros s2 _ _ _ ((d2 _).mpr (by decide))]
    exact h
  · have h := update_rango (s2 : Slider α) raton (s1.update raton g) (by norm_num [s2])
    show 1 ≤ Global.rho.leer _ ∧ Global.rho.leer _ ≤ 50
    rw [update_otros s6 _ _ _ ((d6 _).mpr (by decide)),
      update_otros s5 _ _ _ ((d5 _).mpr (by decide)),
      update_otros s4 _ _ _ ((d4 _).mpr (by decide)),
      update_otros s3 _ _ _ ((d3 _).mpr (by decide))]
    exact h
  · have h := update_rango (s3 : Slider α) raton (s2.update raton (s1.update raton g))
      (by norm_num [s3])
    show 0.1 ≤ Global.beta.leer _ ∧ Global.beta.leer _ ≤ 10
    rw [update_otros s6 _ _ _ ((d6 _).mpr (by decide)),
      update_otros s5 _ _ _ ((d5 _).mpr (by decide)),
      update_otros s4 _ _ _ ((d4 _).mpr (by decide))]
    exact h
  · have h := update_rango (s4 : Slider α) raton
      (s3.update raton (s2.update raton (s1.update raton g))) (by norm_num [s4])
    show 0.001 ≤ Global.dt.leer _ ∧ Global.dt.leer _ ≤ 0.05
    rw [update_otros s6 _ _ _ ((d6 _).mpr (by decide)),
      update_otros s5 _ _ _ ((d5 _).mpr (by decide))]
    exact h
  · have h := update_rango (s5 : Slider α) raton
      (s4.update raton (s3.update raton (s2.update raton (s1.update raton g))))
      (by norm_num [s5])
    have h0 : (0 : α) ≤ (s5 : Slider α).minV := by norm_num [s5]
    show 0 ≤ Global.factorLorenz.leer _ ∧ Global.factorLorenz.leer _ ≤ 0.5
    rw [update_otros s6 _ _ _ ((d6 _).mpr (by decide))]
    exact ⟨le_trans h0 h.1, h.2⟩
  · have h := update_rango (s6 : Slider α) raton
      (s5.update raton (s4.update raton (s3.update raton (s2.update raton
        (s1.update raton g))))) (by norm_num [s6])
    have h0 : (0 : α) ≤ (s6 : Slider α).minV := by norm_num [s6]
    have h1 : (s6 : Slider α).maxV ≤ 20 := by norm_num [s6]
    exact ⟨le_trans h0 h.1, le_trans h.2 h1⟩

theorem slider_acotado_witness :
    (s1 : Slider ℝ).minV ≤ (s1 : Slider ℝ).maxV ∧
    (s1 : Slider ℝ).minV ≤ (s1 : Slider ℝ).val.leer
      ((s1 : Slider ℝ).update ⟨true, ⟨500, 65⟩⟩ parametrosIniciales) ∧
    (s1 : Slider ℝ).val.leer ((s1 : Slider ℝ).update ⟨true, ⟨500, 65⟩⟩ parametrosIniciales)
      ≤ (s1 : Slider ℝ).maxV :=
  ⟨by norm_num [s1],
    (slider_acotado (α := ℝ)).1 s1 ⟨true, ⟨500, 65⟩⟩ parametrosIniciales (by norm_num [s1])⟩

/-! ### The age ceiling -/

theorem debeReset_false_vida (sqrtf : α → α) (q : Particula α) (planeta agujero : Vector3 α)
    (h : q.debeReset sqrtf planeta agujero = false) : q.vida ≤ q.tiempoMax := by
  unfold Particula.debeReset at h
  cases hact : q.activa
  · simp [hact] at h
  · simp only [hact, Bool.not_true, Bool.false_eq_true, if_false, Bool.or_eq_false_iff,
      decide_eq_false_iff_not, not_lt] at h
    exact h.1.2

theorem spawn_eq_vida [FloorRing α] (sqrtf sinf cosf : α → α) (DEG2RAD : α) (s : Sistema α)
    (r : Sorteo) (idx : Nat) :
    ∃ f : Particula α → Particula α,
      (∀ q, (f q).vida = 0 ∧ ((f q).tipo = 0 ∨ (f q).tipo = 1)) ∧
      s.spawn sqrtf sinf cosf DEG2RAD r idx = { s with particulas := s.particulas.modify f idx } := by
  have ht : spawnTipo r.tipo = 0 ∨ spawnTipo r.tipo = 1 := by
    unfold spawnTipo
    split
    · exact Or.inr rfl
    · exact Or.inl rfl
  unfold Sistema.spawn
  by_cases h : spawnTipo r.tipo = 0
  · simp only [h, if_true]
    exact ⟨_, fun q => ⟨rfl, Or.inl rfl⟩, rfl⟩
  · simp only [h, if_false]
    exact ⟨_, fun q => ⟨rfl, ht⟩, rfl⟩

omit [LinearOrderedField α] in
/-- A loop whose iteration `i` keeps the pool size, touches slot `i` only and leaves
there a particle with the property `P`, establishes `P` in the slots it has visited. -/
theorem bucle_slots (P : Particula α → Prop) (paso : Nat → Sistema α → Sistema α)
    (hlen : ∀ i s, (paso i s).particulas.length = s.particulas.length)
    (hotros : ∀ i s j, j ≠ i → (paso i s).particulas[j]? = s.particulas[j]?)
    (hslot : ∀ i s q, (paso i s).particulas[i]? = some q → P q)
    (n : Nat) (s : Sistema α) :
    (Nat.fold paso n s).particulas.length = s.particulas.length ∧
    ∀ j q, j < n → (Nat.fold paso n s).particulas[j]? = some q → P q := by
  induction n with
  | zero => exact ⟨rfl, fun j q hj => absurd hj (Nat.not_lt_zero j)⟩
  | succ n ih =>
    rw [bucle_succ]
    refine ⟨(hlen n _).trans ih.1, ?_⟩
    intro j q hj hq
    by_cases hjn : j = n
    · subst hjn
      exact hslot j _ q hq
    · rw [hotros n _ j hjn] at hq
      exact ih.2 j q (by omega) hq

theorem spawn_slots [FloorRing α] (sqrtf sinf cosf : α → α) (DEG2RAD : α) (s : Sistema α)
    (r : Sorteo) (i : Nat) :
    (s.spawn sqrtf sinf cosf DEG2RAD r i).particulas.length = s.particulas.length ∧
    (∀ j, j ≠ i → (s.spawn sqrtf sinf cosf DEG2RAD r i).particulas[j]? = s.particulas[j]?) ∧
    (∀ q, (s.spawn sqrtf sinf cosf DEG2RAD r i).particulas[i]? = some q →
      q.vida ≤ q.tiempoMax) := by
  obtain ⟨f, hf, heq⟩ := spawn_eq_vida sqrtf sinf cosf DEG2RAD s r i
  rw [heq]
  refine ⟨by simp, ?_, ?_⟩
  · intro j hj
    simp only [List.getElem?_modify]
    cases s.particulas[j]? with
    | none => rfl
    | some a => simp [Ne.symm hj]
  · intro q hq
    simp only [List.getElem?_modify] at hq
    cases hsi : s.particulas[i]? with
    | none => rw [hsi] at hq; simp at hq
    | some a =>
      rw [hsi] at hq
      simp at hq
      subst hq
      unfold Particula.tiempoMax
      rw [(hf a).1]
      split <;> norm_num

theorem updatePaso_slots [FloorRing α] (sqrtf sinf cosf : α → α) (DEG2RAD : α)
    (g : Parametros α) (sorteos : Nat → Sorteo) (i : Nat) (s : Sistema α) :
    (s.updatePaso sqrtf sinf cosf DEG2RAD g sorteos i).particulas.length
      = s.particulas.length ∧
    (∀ j, j ≠ i → (s.updatePaso sqrtf sinf cosf DEG2RAD g sorteos i).particulas[j]?
      = s.particulas[j]?) ∧
    (∀ q, (s.updatePaso sqrtf sinf cosf DEG2RAD g sorteos i).particulas[i]? = some q →
      q.vida ≤ q.tiempoMax) := by
  have hmod : ∀ j, j ≠ i →
      (s.particulas.modify (fun q => q.actualizar sqrtf g s.planeta s.agujero) i)[j]?
        = s.particulas[j]? := by
    intro j hj
    simp only [List.getElem?_modify]
    cases s.particulas[j]? with
    | none => rfl
    | some a => simp [Ne.symm hj]
  unfold Sistema.updatePaso
  simp only
  split
  · next q hq =>
    split
    · next hreset =>
      obtain ⟨h1, h2, h3⟩ := spawn_slots sqrtf sinf cosf DEG2RAD
        { s with particulas :=
            s.particulas.modify (fun q => q.actualizar sqrtf g s.planeta s.agujero) i }
        (sorteos i) i
      refine ⟨by rw [h1]; simp, ?_, h3⟩
      intro j hj
      rw [h2 j hj]
      exact hmod j hj
    · next hreset =>
      refine ⟨by simp, hmod, ?_⟩
      intro q' hq'
      rw [hq] at hq'
      cases hq'
      exact debeReset_false_vida sqrtf q _ _ (by simpa using hreset)
  · next hnone =>
    refine ⟨by simp, hmod, ?_⟩
    intro q' hq'
    rw [hnone] at hq'
    cases hq'

theorem correr_snoc [FloorRing α] (sqrtf sinf cosf : α → α) (DEG2RAD : α) (s : Sistema α)
    (l : List (Parametros α × (Nat → Sorteo))) (t : Parametros α × (Nat → Sorteo)) :
    s.correr sqrtf sinf cosf DEG2RAD (l ++ [t]) =
      (s.correr sqrtf sinf cosf DEG2RAD l).update sqrtf sinf cosf DEG2RAD t.1 t.2 := by
  simp [Sistema.correr, List.foldl_append]

theorem correr_pool [FloorRing α] (sqrtf sinf cosf : α → α) (DEG2RAD : α)
    (g0 : Parametros α) (sorteos0 : Nat → Sorteo) (s0 : Sistema α)
    (ticks : List (Parametros α × (Nat → Sorteo))) :
    ((s0.init sqrtf sinf cosf DEG2RAD g0 sorteos0).correr sqrtf sinf cosf DEG2RAD
        ticks).particulas.length = MAX_PARTICULAS ∧
    ∀ q ∈ ((s0.init sqrtf sinf cosf DEG2RAD g0 sorteos0).correr sqrtf sinf cosf DEG2RAD
        ticks).particulas, q.activa = true := by
  induction ticks using List.reverseRecOn with
  | nil => exact init_pool sqrtf sinf cosf DEG2RAD g0 sorteos0 s0
  | append_singleton l t ih =>
    rw [correr_snoc]
    obtain ⟨h1, h2⟩ := update_pool sqrtf sinf cosf DEG2RAD t.1 t.2 _ ih.2
    exact ⟨h1.trans ih.1, h2⟩

theorem init_vida [FloorRing α] (sqrtf sinf cosf : α → α) (DEG2RAD : α) (g : Parametros α)
    (sorteos : Nat → Sorteo) (s : Sistema α) :
    ∀ j q, j < MAX_PARTICULAS →
      (s.init sqrtf sinf cosf DEG2RAD g sorteos).particulas[j]? = some q →
      q.vida ≤ q.tiempoMax := by
  unfold Sistema.init
  exact (bucle_slots (fun q => q.vida ≤ q.tiempoMax)
    (fun i s => Sistema.spawn sqrtf sinf cosf DEG2RAD s (sorteos i) i)
    (fun i s => (spawn_slots sqrtf sinf cosf DEG2RAD s (sorteos i) i).1)
    (fun i s => (spawn_slots sqrtf sinf cosf DEG2RAD s (sorteos i) i).2.1)
    (fun i s => (spawn_slots sqrtf sinf cosf DEG2RAD s (sorteos i) i).2.2)
    MAX_PARTICULAS _).2

theorem update_vida [FloorRing α] (sqrtf sinf cosf : α → α) (DEG2RAD : α) (g : Parametros α)
    (sorteos : Nat → Sorteo) (s : Sistema α) :
    ∀ j q, j < MAX_PARTICULAS →
      (s.update sqrtf sinf cosf DEG2RAD g sorteos).particulas[j]? = some q →
      q.vida ≤ q.tiempoMax := by
  unfold Sistema.update
  exact (bucle_slots (fun q => q.vida ≤ q.tiempoMax)
    (Sistema.updatePaso sqrtf sinf cosf DEG2RAD g sorteos)
    (fun i s => (updatePaso_slots sqrtf sinf cosf DEG2RAD g sorteos i s).1)
    (fun i s => (updatePaso_slots sqrtf sinf cosf DEG2RAD g sorteos i s).2.1)
    (fun i s => (updatePaso_slots sqrtf sinf cosf DEG2RAD g sorteos i s).2.2)
    MAX_PARTICULAS _).2

/-- C18. After `init` and after every `update` tick, for arbitrary parameters and
draws, every particle of the pool has `vida ≤ 15` if its tipo is 0 and `vida ≤ 25` if
its tipo is 1. -/
theorem techo_de_edad [FloorRing α] (sqrtf sinf cosf : α → α) (DEG2RAD : α)
    (g0 : Parametros α) (sorteos0 : Nat → Sorteo) (s0 : Sistema α)
    (ticks : List (Parametros α × (Nat → Sorteo))) :
    ∀ q ∈ ((s0.init sqrtf sinf cosf DEG2RAD g0 sorteos0).correr sqrtf sinf cosf DEG2RAD
        ticks).particulas,
      (q.tipo = 0 → q.vida ≤ 15) ∧ (q.tipo = 1 → q.vida ≤ 25) := by
  have key : ∀ j q, j < MAX_PARTICULAS →
      ((s0.init sqrtf sinf cosf DEG2RAD g0 sorteos0).correr sqrtf sinf cosf DEG2RAD
        ticks).particulas[j]? = some q → q.vida ≤ q.tiempoMax := by
    cases ticks using List.reverseRecOn with
    | nil => exact init_vida sqrtf sinf cosf DEG2RAD g0 sorteos0 s0
    | append_singleton l t =>
      rw [correr_snoc]
      exact update_vida sqrtf sinf cosf DEG2RAD t.1 t.2 _
  have hlen := (correr_pool sqrtf sinf cosf DEG2RAD g0 sorteos0 s0 ticks).1
  intro q hq
  obtain ⟨j, hj, rfl⟩ := List.mem_iff_getElem.mp hq
  have hv := key j _ (by rw [hlen] at hj; exact hj) (List.getElem?_eq_getElem hj)
  unfold Particula.tiempoMax at hv
  constructor
  · intro ht
    rw [if_pos ht] at hv
    norm_num at hv
    exact hv
  · intro ht
    rw [if_neg (by rw [ht]; decide)] at hv
    norm_num at hv
    exact hv

theorem techo_de_edad_witness :
    ∃ q, q ∈ ((sistemaVacio : Sistema ℝ).init Real.sqrt Real.sin Real.cos (Real.pi / 180)
        parametrosIniciales (fun _ => sorteoOrbita)).particulas ∧
      (q.tipo = 0 → q.vida ≤ 15) ∧ (q.tipo = 1 → q.vida ≤ 25) := by
  have hlen := (correr_pool Real.sqrt Real.sin Real.cos (Real.pi / 180) parametrosIniciales
    (fun _ => sorteoOrbita) (sistemaVacio : Sistema ℝ) []).1
  have h0 : 0 < ((sistemaVacio : Sistema ℝ).init Real.sqrt Real.sin Real.cos (Real.pi / 180)
      parametrosIniciales (fun _ => sorteoOrbita)).particulas.length := by
    have e : ((sistemaVacio : Sistema ℝ).init Real.sqrt Real.sin Real.cos (Real.pi / 180)
        parametrosIniciales (fun _ => sorteoOrbita)).particulas.length = MAX_PARTICULAS := hlen
    rw [e]
    decide
  exact ⟨_, List.getElem_mem h0,
    techo_de_edad Real.sqrt Real.sin Real.cos (Real.pi / 180) parametrosIniciales
      (fun _ => sorteoOrbita) sistemaVacio [] _ (List.getElem_mem h0)⟩

/-! ### Spawn velocities -/

theorem spawn_flujo [FloorRing α] (sqrtf sinf cosf : α → α) (DEG2RAD : α) (s : Sistema α)
    (r : Sorteo) (idx : Nat) (htipo : spawnTipo r.tipo = 0) (hidx : idx < s.particulas.length) :
    ∃ q, (s.spawn sqrtf sinf cosf DEG2RAD r idx).particulas[idx]? = some q ∧
      q.tipo = 0 ∧
      q.vel = Vector3Scale
        (Vector3Normalize sqrtf
          (Vector3Add (s.dir sqrtf) (Vector3Scale (s.perpRot sqrtf sinf cosf DEG2RAD r) 0.3)))
        (6.0 + (r.velMag : α) / 100.0) := by
  unfold Sistema.spawn
  simp only [htipo, if_true, List.getElem?_modify, List.getElem?_eq_getElem hidx]
  exact ⟨_, rfl, rfl, rfl⟩

theorem spawn_orbita [FloorRing α] (sqrtf sinf cosf : α → α) (DEG2RAD : α) (s : Sistema α)
    (r : Sorteo) (idx : Nat) (htipo : spawnTipo r.tipo = 1) (hidx : idx < s.particulas.length) :
    ∃ q, (s.spawn sqrtf sinf cosf DEG2RAD r idx).particulas[idx]? = some q ∧
      q.tipo = 1 ∧
      q.pos = Vector3Add s.planeta
        (Vector3Add (Vector3Scale (s.perpRot sqrtf sinf cosf DEG2RAD r)
          (2.0 + (r.radio : α) / 100.0)) ⟨0, 0, (r.altura : α) / 100.0⟩) ∧
      q.vel = Vector3Add
        (Vector3Scale (spawnTangencial sqrtf (s.perpRot sqrtf sinf cosf DEG2RAD r))
          (spawnVelOrbita sqrtf (2.0 + (r.radio : α) / 100.0) r.jitter))
        (Vector3Scale (s.dir sqrtf) 1.5) := by
  have h0 : spawnTipo r.tipo ≠ 0 := by rw [htipo]; decide
  unfold Sistema.spawn
  simp only [h0, if_false, List.getElem?_modify, List.getElem?_eq_getElem hidx]
  exact ⟨_, rfl, htipo, rfl, rfl⟩

theorem longitud_normalizar (v : Vector3 ℝ) (h : 0 < v.x * v.x + v.y * v.y + v.z * v.z) :
    Vector3Length Real.sqrt (Vector3Normalize Real.sqrt v) = 1 := by
  have hL : 0 < Real.sqrt (v.x * v.x + v.y * v.y + v.z * v.z) := Real.sqrt_pos.mpr h
  rw [normalizar_de v _ hL (Real.mul_self_sqrt h.le).symm]
  unfold Vector3Length
  simp only
  have e : v.x / Real.sqrt (v.x * v.x + v.y * v.y + v.z * v.z) *
        (v.x / Real.sqrt (v.x * v.x + v.y * v.y + v.z * v.z)) +
      v.y / Real.sqrt (v.x * v.x + v.y * v.y + v.z * v.z) *
        (v.y / Real.sqrt (v.x * v.x + v.y * v.y + v.z * v.z)) +
      v.z / Real.sqrt (v.x * v.x + v.y * v.y + v.z * v.z) *
        (v.z / Real.sqrt (v.x * v.x + v.y * v.y + v.z * v.z)) = 1 := by
    field_simp
  rw [e, Real.sqrt_one]

/-- With distinct foci the locals of `spawn` are `dir = (1/√2, 1/√2, 0)` and
`perpRot = (-sin ang, sin ang, cos ang)`. -/
theorem locales_focos (g : Parametros ℝ) (s0 : Sistema ℝ) (r : Sorteo)
    (hfocos : g.beta * (g.rho - 1) > 0) :
    (s0.calcularFocos Real.sqrt g).dir Real.sqrt = ⟨1 / Real.sqrt 2, 1 / Real.sqrt 2, 0⟩ ∧
    (s0.calcularFocos Real.sqrt g).perpRot Real.sqrt Real.sin Real.cos (Real.pi / 180) r =
      ⟨-Real.sin ((r.ang : ℝ) * (Real.pi / 180)), Real.sin ((r.ang : ℝ) * (Real.pi / 180)),
        Real.cos ((r.ang : ℝ) * (Real.pi / 180))⟩ := by
  have hb : 0 < Real.sqrt (max 0 (g.beta * (g.rho - 1))) := by
    rw [Real.sqrt_pos]
    exact lt_max_of_lt_right hfocos
  have hdir : (s0.calcularFocos Real.sqrt g).dir Real.sqrt
      = ⟨1 / Real.sqrt 2, 1 / Real.sqrt 2, 0⟩ := by
    unfold Sistema.dir
    rw [calcularFocos_planeta, calcularFocos_agujero, spawnDir_focos hb]
  refine ⟨hdir, ?_⟩
  unfold Sistema.perpRot
  rw [hdir, spawnPerp_focos, spawnPerpRot_focos]

theorem inv_raiz_dos_cuadrado : (1 / Real.sqrt 2) * (1 / Real.sqrt 2) = 1 / 2 := by
  rw [div_mul_div_comm, raiz_dos_cuadrado]; norm_num

/-- The blend `dir + 0.3 * perpRot` of the flow branch is never the zero vector. -/
theorem mezcla_flujo_pos (x : ℝ) :
    0 < (1 / Real.sqrt 2 + -Real.sin x * 0.3) * (1 / Real.sqrt 2 + -Real.sin x * 0.3) +
      (1 / Real.sqrt 2 + Real.sin x * 0.3) * (1 / Real.sqrt 2 + Real.sin x * 0.3) +
      (0 + Real.cos x * 0.3) * (0 + Real.cos x * 0.3) := by
  have e : (1 / Real.sqrt 2 + -Real.sin x * 0.3) * (1 / Real.sqrt 2 + -Real.sin x * 0.3) +
      (1 / Real.sqrt 2 + Real.sin x * 0.3) * (1 / Real.sqrt 2 + Real.sin x * 0.3) +
      (0 + Real.cos x * 0.3) * (0 + Real.cos x * 0.3)
      = 1 + 0.18 * Real.sin x ^ 2 + 0.09 * Real.cos x ^ 2 := by
    linear_combination 2 * inv_raiz_dos_cuadrado
  rw [e]
  positivity

/-- C11. With distinct foci, a flow spawn gives slot `idx` a velocity of magnitude
exactly `6.0 + k/100` for the speed draw `k` in `0..400`, hence within `[6, 10]`,
directed along the normalised vector `dir + 0.3 * perpRot`, for every angle draw. -/
theorem velocidad_flujo (g : Parametros ℝ) (s0 : Sistema ℝ) (r : Sorteo) (idx : Nat)
    (hfocos : g.beta * (g.rho - 1) > 0) (htipo : spawnTipo r.tipo = 0)
    (hvel : 0 ≤ r.velMag ∧ r.velMag ≤ 400) (hidx : idx < s0.particulas.length) :
    ∃ q, ((s0.calcularFocos Real.sqrt g).spawn Real.sqrt Real.sin Real.cos (Real.pi / 180)
        r idx).particulas[idx]? = some q ∧
      Vector3Length Real.sqrt q.vel = 6 + (r.velMag : ℝ) / 100 ∧
      6 ≤ Vector3Length Real.sqrt q.vel ∧ Vector3Length Real.sqrt q.vel ≤ 10 ∧
      q.vel = Vector3Scale
        (Vector3Normalize Real.sqrt
          (Vector3Add ((s0.calcularFocos Real.sqrt g).dir Real.sqrt)
            (Vector3Scale ((s0.calcularFocos Real.sqrt g).perpRot Real.sqrt Real.sin Real.cos
              (Real.pi / 180) r) 0.3)))
        (6 + (r.velMag : ℝ) / 100) ∧
      Vector3Length Real.sqrt
        (Vector3Normalize Real.sqrt
          (Vector3Add ((s0.calcularFocos Real.sqrt g).dir Real.sqrt)
            (Vector3Scale ((s0.calcularFocos Real.sqrt g).perpRot Real.sqrt Real.sin Real.cos
              (Real.pi / 180) r) 0.3))) = 1 := by
  obtain ⟨q, hq, -, hv⟩ := spawn_flujo Real.sqrt Real.sin Real.cos (Real.pi / 180)
    (s0.calcularFocos Real.sqrt g) r idx htipo hidx
  obtain ⟨hdir, hrot⟩ := locales_focos g s0 r hfocos
  have hk0 : (0 : ℝ) ≤ (r.velMag : ℝ) := by exact_mod_cast hvel.1
  have hk1 : (r.velMag : ℝ) ≤ 400 := by exact_mod_cast hvel.2
  have hmag : (6.0 : ℝ) + (r.velMag : ℝ) / 100.0 = 6 + (r.velMag : ℝ) / 100 := by norm_num
  have hunit : Vector3Length Real.sqrt
      (Vector3Normalize Real.sqrt
        (Vector3Add ((s0.calcularFocos Real.sqrt g).dir Real.sqrt)
          (Vector3Scale ((s0.calcularFocos Real.sqrt g).perpRot Real.sqrt Real.sin Real.cos
            (Real.pi / 180) r) 0.3))) = 1 := by
    apply longitud_normalizar
    rw [hdir, hrot]
    exact mezcla_flujo_pos _
  have hlen : Vector3Length Real.sqrt q.vel = 6 + (r.velMag : ℝ) / 100 := by
    rw [hv, hmag, longitud_escala _ (by positivity), hunit, mul_one]
  refine ⟨q, hq, hlen, ?_, ?_, ?_, hunit⟩
  · rw [hlen]; linarith [div_nonneg hk0 (by norm_num : (0 : ℝ) ≤ 100)]
  · rw [hlen]; linarith [div_le_div_of_nonneg_right hk1 (by norm_num : (0 : ℝ) ≤ 100)]
  · rw [hv, hmag]

theorem velocidad_flujo_witness :
    ((parametrosIniciales : Parametros ℝ).beta * ((parametrosIniciales : Parametros ℝ).rho - 1) > 0 ∧
      spawnTipo sorteoFlujo.tipo = 0 ∧
      (0 ≤ sorteoFlujo.velMag ∧ sorteoFlujo.velMag ≤ 400) ∧
      0 < (sistemaUno : Sistema ℝ).particulas.length) ∧
    ∃ q, (((sistemaUno : Sistema ℝ).calcularFocos Real.sqrt parametrosIniciales).spawn
        Real.sqrt Real.sin Real.cos (Real.pi / 180) sorteoFlujo 0).particulas[0]? = some q ∧
      Vector3Length Real.sqrt q.vel = 8 := by
  have h1 : (parametrosIniciales : Parametros ℝ).beta *
      ((parametrosIniciales : Parametros ℝ).rho - 1) > 0 := by norm_num [parametrosIniciales]
  have h2 : spawnTipo sorteoFlujo.tipo = 0 := by decide
  have h3 : 0 ≤ sorteoFlujo.velMag ∧ sorteoFlujo.velMag ≤ 400 := by decide
  have h4 : 0 < (sistemaUno : Sistema ℝ).particulas.length := by simp [sistemaUno]
  refine ⟨⟨h1, h2, h3, h4⟩, ?_⟩
  obtain ⟨q, hq, hlen, -⟩ := velocidad_flujo parametrosIniciales sistemaUno sorteoFlujo 0
    h1 h2 h3 h4
  refine ⟨q, hq, ?_⟩
  rw [hlen]
  norm_num [sorteoFlujo]

/-- The normalised `tangencial` built from `perpRot = (-s, s, c)`: zero when `s = 0`,
`-dir` when `s > 0` and `dir` when `s < 0`. -/
theorem tangencial_casos (s c : ℝ) :
    (s = 0 → spawnTangencial Real.sqrt ⟨-s, s, c⟩ = ⟨0, 0, 0⟩) ∧
    (0 < s → spawnTangencial Real.sqrt ⟨-s, s, c⟩
      = Vector3Scale ⟨1 / Real.sqrt 2, 1 / Real.sqrt 2, 0⟩ (-1)) ∧
    (s < 0 → spawnTangencial Real.sqrt ⟨-s, s, c⟩ = ⟨1 / Real.sqrt 2, 1 / Real.sqrt 2, 0⟩) := by
  have h2 : 0 < Real.sqrt 2 := Real.sqrt_pos.mpr (by norm_num)
  unfold spawnTangencial
  simp only
  refine ⟨?_, ?_, ?_⟩
  · intro hs
    rw [normalizar_cero _ (by simp [hs])]
    simp [hs]
  · intro hs
    rw [normalizar_de _ (s * Real.sqrt 2) (by positivity)
      (by simp only; linear_combination (-(s ^ 2)) * raiz_dos_cuadrado)]
    simp only [Vector3Scale, Vector3.mk.injEq]
    refine ⟨?_, ?_, by simp⟩ <;> field_simp
  · intro hs
    have hs' : 0 < -s := by linarith
    rw [normalizar_de _ (-s * Real.sqrt 2) (by positivity)
      (by simp only; linear_combination (-(s ^ 2)) * raiz_dos_cuadrado)]
    simp only [Vector3.mk.injEq]
    have hne : s ≠ 0 := hs.ne
    refine ⟨?_, ?_, by simp⟩ <;> field_simp

/-- C19. With distinct foci, in an orbit spawn the direction `tangencial` is the zero
vector, `dir` or `-dir`, so the velocity given to slot `idx` is a multiple of `dir`,
with factor `1.5`, `1.5 + velOrbita` or `1.5 - velOrbita`. -/
theorem velocidad_orbita_colineal (g : Parametros ℝ) (s0 : Sistema ℝ) (r : Sorteo) (idx : Nat)
    (hfocos : g.beta * (g.rho - 1) > 0) (htipo : spawnTipo r.tipo = 1)
    (hidx : idx < s0.particulas.length) :
    (spawnTangencial Real.sqrt ((s0.calcularFocos Real.sqrt g).perpRot Real.sqrt Real.sin
        Real.cos (Real.pi / 180) r) = ⟨0, 0, 0⟩ ∨
      spawnTangencial Real.sqrt ((s0.calcularFocos Real.sqrt g).perpRot Real.sqrt Real.sin
        Real.cos (Real.pi / 180) r) = (s0.calcularFocos Real.sqrt g).dir Real.sqrt ∨
      spawnTangencial Real.sqrt ((s0.calcularFocos Real.sqrt g).perpRot Real.sqrt Real.sin
        Real.cos (Real.pi / 180) r)
        = Vector3Scale ((s0.calcularFocos Real.sqrt g).dir Real.sqrt) (-1)) ∧
    ∃ q, ((s0.calcularFocos Real.sqrt g).spawn Real.sqrt Real.sin Real.cos (Real.pi / 180)
        r idx).particulas[idx]? = some q ∧
      (q.vel = Vector3Scale ((s0.calcularFocos Real.sqrt g).dir Real.sqrt) 1.5 ∨
        q.vel = Vector3Scale ((s0.calcularFocos Real.sqrt g).dir Real.sqrt)
          (1.5 + spawnVelOrbita Real.sqrt (2.0 + (r.radio : ℝ) / 100.0) r.jitter) ∨
        q.vel = Vector3Scale ((s0.calcularFocos Real.sqrt g).dir Real.sqrt)
          (1.5 - spawnVelOrbita Real.sqrt (2.0 + (r.radio : ℝ) / 100.0) r.jitter)) := by
  obtain ⟨q, hq, -, -, hv⟩ := spawn_orbita Real.sqrt Real.sin Real.cos (Real.pi / 180)
    (s0.calcularFocos Real.sqrt g) r idx htipo hidx
  obtain ⟨hdir, hrot⟩ := locales_focos g s0 r hfocos
  obtain ⟨c0, cpos, cneg⟩ := tangencial_casos (Real.sin ((r.ang : ℝ) * (Real.pi / 180)))
    (Real.cos ((r.ang : ℝ) * (Real.pi / 180)))
  rw [hrot, hdir] at hv
  rw [hrot, hdir]
  rcases lt_trichotomy (Real.sin ((r.ang : ℝ) * (Real.pi / 180))) 0 with h | h | h
  · refine ⟨Or.inr (Or.inl (cneg h)), q, hq, Or.inr (Or.inl ?_)⟩
    rw [hv, cneg h]
    simp only [Vector3Add, Vector3Scale, Vector3.mk.injEq]
    refine ⟨?_, ?_, ?_⟩ <;> ring
  · refine ⟨Or.inl (c0 h), q, hq, Or.inl ?_⟩
    rw [hv, c0 h]
    simp [Vector3Add, Vector3Scale]
  · refine ⟨Or.inr (Or.inr (cpos h)), q, hq, Or.inr (Or.inr ?_)⟩
    rw [hv, cpos h]
    simp only [Vector3Add, Vector3Scale, Vector3.mk.injEq]
    refine ⟨?_, ?_, ?_⟩ <;> ring

theorem velocidad_orbita_colineal_witness :
    ((parametrosIniciales : Parametros ℝ).beta * ((parametrosIniciales : Parametros ℝ).rho - 1) > 0 ∧
      spawnTipo sorteoOrbita90.tipo = 1 ∧
      0 < (sistemaUno : Sistema ℝ).particulas.length) ∧
    ∃ q, (((sistemaUno : Sistema ℝ).calcularFocos Real.sqrt parametrosIniciales).spawn
        Real.sqrt Real.sin Real.cos (Real.pi / 180) sorteoOrbita90 0).particulas[0]? = some q ∧
      (q.vel = Vector3Scale
          (((sistemaUno : Sistema ℝ).calcularFocos Real.sqrt parametrosIniciales).dir Real.sqrt)
          1.5 ∨
        q.vel = Vector3Scale
          (((sistemaUno : Sistema ℝ).calcularFocos Real.sqrt parametrosIniciales).dir Real.sqrt)
          (1.5 + spawnVelOrbita Real.sqrt (2.0 + (sorteoOrbita90.radio : ℝ) / 100.0)
            sorteoOrbita90.jitter) ∨
        q.vel = Vector3Scale
          (((sistemaUno : Sistema ℝ).calcularFocos Real.sqrt parametrosIniciales).dir Real.sqrt)
          (1.5 - spawnVelOrbita Real.sqrt (2.0 + (sorteoOrbita90.radio : ℝ) / 100.0)
            sorteoOrbita90.jitter)) := by
  have h1 : (parametrosIniciales : Parametros ℝ).beta *
      ((parametrosIniciales : Parametros ℝ).rho - 1) > 0 := by norm_num [parametrosIniciales]
  have h2 : spawnTipo sorteoOrbita90.tipo = 1 := by decide
  have h3 : 0 < (sistemaUno : Sistema ℝ).particulas.length := by simp [sistemaUno]
  exact ⟨⟨h1, h2, h3⟩,
    (velocidad_orbita_colineal parametrosIniciales sistemaUno sorteoOrbita90 0 h1 h2 h3).2⟩

/-- The length of `perpRot = (-sin x, sin x, cos x)` is `sqrt (1 + sin x ^ 2)`. -/
theorem perpRot_longitud (x : ℝ) :
    Vector3Length Real.sqrt ⟨-Real.sin x, Real.sin x, Real.cos x⟩
      = Real.sqrt (1 + Real.sin x ^ 2) := by
  unfold Vector3Length
  congr 1
  simp only
  linear_combination Real.sin_sq_add_cos_sq x

theorem angulo_recto : ((sorteoOrbita90.ang : ℝ) * (Real.pi / 180)) = Real.pi / 2 := by
  simp only [sorteoOrbita90]
  push_cast
  ring

/-- C12. At the default parameters and the angle draw 90, `dir` is a unit vector and
`perpRot = (-1, 1, 0)` is perpendicular to it, but its length is `sqrt 2`, not 1: the
orbit spawn of radius 4.0 is placed at distance `4 * sqrt 2` from `planeta`. -/
theorem perpRot_no_unitario :
    ((sistemaUno : Sistema ℝ).calcularFocos Real.sqrt parametrosIniciales).perpRot Real.sqrt
        Real.sin Real.cos (Real.pi / 180) sorteoOrbita90 = ⟨-1, 1, 0⟩ ∧
    Vector3Length Real.sqrt
      (((sistemaUno : Sistema ℝ).calcularFocos Real.sqrt parametrosIniciales).perpRot Real.sqrt
        Real.sin Real.cos (Real.pi / 180) sorteoOrbita90) = Real.sqrt 2 ∧
    1 < Real.sqrt 2 ∧
    Vector3Length Real.sqrt
      (((sistemaUno : Sistema ℝ).calcularFocos Real.sqrt parametrosIniciales).dir Real.sqrt) = 1 ∧
    (((sistemaUno : Sistema ℝ).calcularFocos Real.sqrt parametrosIniciales).dir Real.sqrt).x * (-1)
      + (((sistemaUno : Sistema ℝ).calcularFocos Real.sqrt parametrosIniciales).dir Real.sqrt).y * 1
      + (((sistemaUno : Sistema ℝ).calcularFocos Real.sqrt parametrosIniciales).dir Real.sqrt).z * 0
      = 0 ∧
    (2.0 + (sorteoOrbita90.radio : ℝ) / 100.0 = 4 ∧
      ∃ q, (((sistemaUno : Sistema ℝ).calcularFocos Real.sqrt parametrosIniciales).spawn
          Real.sqrt Real.sin Real.cos (Real.pi / 180) sorteoOrbita90 0).particulas[0]? = some q ∧
        Vector3Distance Real.sqrt
          ((sistemaUno : Sistema ℝ).calcularFocos Real.sqrt parametrosIniciales).planeta q.pos
          = 4 * Real.sqrt 2) := by
  have h2 : 0 ≤ Real.sqrt 2 := Real.sqrt_nonneg 2
  have hfocos : (parametrosIniciales : Parametros ℝ).beta *
      ((parametrosIniciales : Parametros ℝ).rho - 1) > 0 := by norm_num [parametrosIniciales]
  obtain ⟨hdir, hrot⟩ := locales_focos parametrosIniciales sistemaUno sorteoOrbita90 hfocos
  have hrot' : ((sistemaUno : Sistema ℝ).calcularFocos Real.sqrt parametrosIniciales).perpRot
      Real.sqrt Real.sin Real.cos (Real.pi / 180) sorteoOrbita90 = ⟨-1, 1, 0⟩ := by
    rw [hrot, angulo_recto, Real.sin_pi_div_two, Real.cos_pi_div_two]
  have hradio : (2.0 : ℝ) + (sorteoOrbita90.radio : ℝ) / 100.0 = 4 := by
    norm_num [sorteoOrbita90]
  refine ⟨hrot', ?_, ?_, ?_, ?_, hradio, ?_⟩
  · rw [hrot']
    unfold Vector3Length
    norm_num
  · rw [Real.lt_sqrt (by norm_num)]
    norm_num
  · rw [hdir]
    unfold Vector3Length
    simp only [inv_raiz_dos_cuadrado]
    norm_num
  · rw [hdir]
    ring
  · obtain ⟨q, hq, -, hpos, -⟩ := spawn_orbita Real.sqrt Real.sin Real.cos (Real.pi / 180)
      ((sistemaUno : Sistema ℝ).calcularFocos Real.sqrt parametrosIniciales) sorteoOrbita90 0
      (by decide) (by simp [Sistema.calcularFocos, sistemaUno])
    refine ⟨q, hq, ?_⟩
    rw [hpos, hrot', hradio]
    have haltura : ((sorteoOrbita90.altura : ℝ) / 100.0) = 0 := by simp [sorteoOrbita90]
    rw [haltura]
    unfold Vector3Distance
    simp only [Vector3Add, Vector3Scale]
    rw [Real.sqrt_eq_iff_mul_self_eq
      (add_nonneg (add_nonneg (mul_self_nonneg _) (mul_self_nonneg _)) (mul_self_nonneg _))
      (by positivity)]
    linear_combination (-16) * raiz_dos_cuadrado

/-! ### The spin torque -/

/-- The spin force where only the term of `planeta` is active. -/
theorem fSpin_planeta (sqrtf : α → α) (g : Parametros α) (q : Particula α)
    (p planeta agujero : Vector3 α)
    (h1 : Vector3Length sqrtf (Vector3Subtract planeta p) < 25.0)
    (h2 : ¬ Vector3Length sqrtf (Vector3Subtract agujero p) < 20.0) :
    (q.calcularFuerzas sqrtf g p planeta agujero).fSpin =
      Vector3Add ⟨0, 0, 0⟩
        (Vector3Scale
          (Vector3Normalize sqrtf
            ⟨-(Vector3Subtract planeta p).y, (Vector3Subtract planeta p).x, 0⟩)
          ((if q.tipo = 0 then g.fuerzaSpin else g.fuerzaSpin * 2.5) *
            (1.0 - Vector3Length sqrtf (Vector3Subtract planeta p) / 25.0))) := by
  unfold Particula.calcularFuerzas
  simp only [h1, h2, if_true, if_false]

/-- The spin force where only the term of `agujero` is active. -/
theorem fSpin_agujero (sqrtf : α → α) (g : Parametros α) (q : Particula α)
    (p planeta agujero : Vector3 α)
    (h1 : ¬ Vector3Length sqrtf (Vector3Subtract planeta p) < 25.0)
    (h2 : Vector3Length sqrtf (Vector3Subtract agujero p) < 20.0) :
    (q.calcularFuerzas sqrtf g p planeta agujero).fSpin =
      Vector3Add ⟨0, 0, 0⟩
        (Vector3Scale
          (Vector3Normalize sqrtf
            ⟨(Vector3Subtract agujero p).y, -(Vector3Subtract agujero p).x, 0⟩)
          (g.fuerzaSpin * (1.0 - Vector3Length sqrtf (Vector3Subtract agujero p) / 20.0))) := by
  unfold Particula.calcularFuerzas
  simp only [h1, h2, if_true, if_false]

theorem distancia_eq_longitud (sqrtf : α → α) (p foco : Vector3 α) :
    Vector3Distance sqrtf p foco = Vector3Length sqrtf (Vector3Subtract foco p) := rfl

theorem intensidad_pos (g : Parametros ℝ) (q : Particula ℝ) (h : 0 < g.fuerzaSpin) :
    0 < (if q.tipo = 0 then g.fuerzaSpin else g.fuerzaSpin * 2.5) := by
  split
  · exact h
  · positivity

/-- C13. With `fuerzaSpin > 0`, where only the term of `planeta` acts (closer than 25
to `planeta`, at least 20 from `agujero`, non-zero horizontal offset) the z-component
of `(p - planeta) × fSpin` is negative: the force circulates clockwise seen from +z;
where only the term of `agujero` acts the z-component of `(p - agujero) × fSpin` is
positive: counter-clockwise. The handedness is the opposite of the one claimed. -/
theorem spin_sentido (g : Parametros ℝ) (q : Particula ℝ) (planeta agujero : Vector3 ℝ)
    (hspin : 0 < g.fuerzaSpin) :
    (∀ p : Vector3 ℝ, Vector3Distance Real.sqrt p planeta < 25 →
      20 ≤ Vector3Distance Real.sqrt p agujero →
      (p.x - planeta.x ≠ 0 ∨ p.y - planeta.y ≠ 0) →
      (p.x - planeta.x) * (q.calcularFuerzas Real.sqrt g p planeta agujero).fSpin.y
        - (p.y - planeta.y) * (q.calcularFuerzas Real.sqrt g p planeta agujero).fSpin.x < 0) ∧
    (∀ p : Vector3 ℝ, Vector3Distance Real.sqrt p agujero < 20 →
      25 ≤ Vector3Distance Real.sqrt p planeta →
      (p.x - agujero.x ≠ 0 ∨ p.y - agujero.y ≠ 0) →
      0 < (p.x - agujero.x) * (q.calcularFuerzas Real.sqrt g p planeta agujero).fSpin.y
        - (p.y - agujero.y) * (q.calcularFuerzas Real.sqrt g p planeta agujero).fSpin.x) := by
  constructor
  · intro p hd ha hh
    rw [distancia_eq_longitud] at hd ha
    have h1 : Vector3Length Real.sqrt (Vector3Subtract planeta p) < 25.0 := by
      norm_num; exact hd
    have h2 : ¬ Vector3Length Real.sqrt (Vector3Subtract agujero p) < 20.0 := by
      norm_num; exact ha
    have hS : 0 < (planeta.x - p.x) * (planeta.x - p.x) + (planeta.y - p.y) * (planeta.y - p.y) := by
      rcases hh with hx | hy
      · have : planeta.x - p.x ≠ 0 := fun h => hx (by linarith)
        nlinarith [mul_self_pos.mpr this, mul_self_nonneg (planeta.y - p.y)]
      · have : planeta.y - p.y ≠ 0 := fun h => hy (by linarith)
        nlinarith [mul_self_pos.mpr this, mul_self_nonneg (planeta.x - p.x)]
    have hS' : 0 < -(planeta.y - p.y) * -(planeta.y - p.y)
        + (planeta.x - p.x) * (planeta.x - p.x) + 0 * 0 := by linarith
    have hL := Real.sqrt_pos.mpr hS'
    have hk : 0 < (if q.tipo = 0 then g.fuerzaSpin else g.fuerzaSpin * 2.5) *
        (1.0 - Vector3Length Real.sqrt (Vector3Subtract planeta p) / 25.0) := by
      apply mul_pos (intensidad_pos g q hspin)
      norm_num
      linarith
    rw [fSpin_planeta Real.sqrt g q p planeta agujero h1 h2]
    generalize (if q.tipo = 0 then g.fuerzaSpin else g.fuerzaSpin * 2.5) *
        (1.0 - Vector3Length Real.sqrt (Vector3Subtract planeta p) / 25.0) = k at hk
    simp only [Vector3Subtract]
    rw [normalizar_de _ _ hL (Real.mul_self_sqrt hS'.le).symm]
    generalize Real.sqrt (-(planeta.y - p.y) * -(planeta.y - p.y)
        + (planeta.x - p.x) * (planeta.x - p.x) + 0 * 0) = L at hL
    simp only [Vector3Add, Vector3Scale]
    have key : (p.x - planeta.x) * (0 + (planeta.x - p.x) / L * k)
        - (p.y - planeta.y) * (0 + -(planeta.y - p.y) / L * k)
        = -(((planeta.x - p.x) * (planeta.x - p.x) + (planeta.y - p.y) * (planeta.y - p.y))
          * k / L) := by
      field_simp
      ring
    rw [key]
    exact neg_neg_of_pos (div_pos (mul_pos hS hk) hL)
  · intro p hd hp hh
    rw [distancia_eq_longitud] at hd hp
    have h1 : ¬ Vector3Length Real.sqrt (Vector3Subtract planeta p) < 25.0 := by
      norm_num; exact hp
    have h2 : Vector3Length Real.sqrt (Vector3Subtract agujero p) < 20.0 := by
      norm_num; exact hd
    have hS : 0 < (agujero.x - p.x) * (agujero.x - p.x) + (agujero.y - p.y) * (agujero.y - p.y) := by
      rcases hh with hx | hy
      · have : agujero.x - p.x ≠ 0 := fun h => hx (by linarith)
        nlinarith [mul_self_pos.mpr this, mul_self_nonneg (agujero.y - p.y)]
      · have : agujero.y - p.y ≠ 0 := fun h => hy (by linarith)
        nlinarith [mul_self_pos.mpr this, mul_self_nonneg (agujero.x - p.x)]
    have hS' : 0 < (agujero.y - p.y) * (agujero.y - p.y)
        + -(agujero.x - p.x) * -(agujero.x - p.x) + 0 * 0 := by linarith
    have hL := Real.sqrt_pos.mpr hS'
    have hk : 0 < g.fuerzaSpin *
        (1.0 - Vector3Length Real.sqrt (Vector3Subtract agujero p) / 20.0) := by
      apply mul_pos hspin
      norm_num
      linarith
    rw [fSpin_agujero Real.sqrt g q p planeta agujero h1 h2]
    generalize g.fuerzaSpin *
        (1.0 - Vector3Length Real.sqrt (Vector3Subtract agujero p) / 20.0) = k at hk
    simp only [Vector3Subtract]
    rw [normalizar_de _ _ hL (Real.mul_self_sqrt hS'.le).symm]
    generalize Real.sqrt ((agujero.y - p.y) * (agujero.y - p.y)
        + -(agujero.x - p.x) * -(agujero.x - p.x) + 0 * 0) = L at hL
    simp only [Vector3Add, Vector3Scale]
    have key : (p.x - agujero.x) * (0 + -(agujero.x - p.x) / L * k)
        - (p.y - agujero.y) * (0 + (agujero.y - p.y) / L * k)
        = ((agujero.x - p.x) * (agujero.x - p.x) + (agujero.y - p.y) * (agujero.y - p.y))
          * k / L := by
      field_simp
      ring
    rw [key]
    exact div_pos (mul_pos hS hk) hL

theorem suma_cero (v : Vector3 ℝ) : Vector3Add ⟨0, 0, 0⟩ v = v := by
  simp [Vector3Add]

/-- Away from the vertical through `planeta` the ramp holds: where only the term of
`planeta` acts and the horizontal offset is not zero, the spin force has magnitude
`I * (1 - d/25)`. -/
theorem spin_rampa_planeta (g : Parametros ℝ) (q : Particula ℝ) (p planeta agujero : Vector3 ℝ)
    (hspin : 0 ≤ g.fuerzaSpin) (hd : Vector3Distance Real.sqrt p planeta < 25)
    (ha : 20 ≤ Vector3Distance Real.sqrt p agujero)
    (hh : p.x - planeta.x ≠ 0 ∨ p.y - planeta.y ≠ 0) :
    Vector3Length Real.sqrt (q.calcularFuerzas Real.sqrt g p planeta agujero).fSpin =
      (if q.tipo = 0 then g.fuerzaSpin else g.fuerzaSpin * 2.5) *
        (1 - Vector3Distance Real.sqrt p planeta / 25) := by
  have h1 : Vector3Length Real.sqrt (Vector3Subtract planeta p) < 25.0 := by
    rw [← distancia_eq_longitud]; norm_num; exact hd
  have h2 : ¬ Vector3Length Real.sqrt (Vector3Subtract agujero p) < 20.0 := by
    rw [← distancia_eq_longitud]; norm_num; exact ha
  have hS : 0 < -(planeta.y - p.y) * -(planeta.y - p.y)
      + (planeta.x - p.x) * (planeta.x - p.x) + 0 * 0 := by
    rcases hh with hx | hy
    · have : planeta.x - p.x ≠ 0 := fun h => hx (by linarith)
      nlinarith [mul_self_pos.mpr this, mul_self_nonneg (planeta.y - p.y)]
    · have : planeta.y - p.y ≠ 0 := fun h => hy (by linarith)
      nlinarith [mul_self_pos.mpr this, mul_self_nonneg (planeta.x - p.x)]
  have hI : 0 ≤ (if q.tipo = 0 then g.fuerzaSpin else g.fuerzaSpin * 2.5) := by
    split
    · exact hspin
    · positivity
  have hk : 0 ≤ (if q.tipo = 0 then g.fuerzaSpin else g.fuerzaSpin * 2.5) *
      (1.0 - Vector3Length Real.sqrt (Vector3Subtract planeta p) / 25.0) := by
    apply mul_nonneg hI
    rw [← distancia_eq_longitud]
    norm_num
    linarith
  rw [fSpin_planeta Real.sqrt g q p planeta agujero h1 h2, suma_cero,
    longitud_escala _ hk, longitud_normalizar _ (by simpa [Vector3Subtract] using hS),
    mul_one, ← distancia_eq_longitud]
  norm_num

/-- The foci of `parametrosFocos16`. -/
theorem focos16 :
    ((sistemaVacio : Sistema ℝ).calcularFocos Real.sqrt parametrosFocos16).planeta
      = ⟨-16, -16, 32⟩ ∧
    ((sistemaVacio : Sistema ℝ).calcularFocos Real.sqrt parametrosFocos16).agujero
      = ⟨16, 16, 32⟩ := by
  have h : Real.sqrt (max 0 ((parametrosFocos16 : Parametros ℝ).beta *
      ((parametrosFocos16 : Parametros ℝ).rho - 1))) = 16 := by
    rw [Real.sqrt_eq_iff_mul_self_eq (le_max_left _ _) (by norm_num)]
    norm_num [parametrosFocos16]
  rw [calcularFocos_planeta, calcularFocos_agujero, h]
  norm_num [parametrosFocos16]

theorem spin_sentido_witness :
    (0 < (parametrosFocos16 : Parametros ℝ).fuerzaSpin ∧
      Vector3Distance Real.sqrt ⟨-15, -16, 32⟩
        ((sistemaVacio : Sistema ℝ).calcularFocos Real.sqrt parametrosFocos16).planeta < 25 ∧
      20 ≤ Vector3Distance Real.sqrt ⟨-15, -16, 32⟩
        ((sistemaVacio : Sistema ℝ).calcularFocos Real.sqrt parametrosFocos16).agujero ∧
      ((-15 : ℝ) - ((sistemaVacio : Sistema ℝ).calcularFocos Real.sqrt
        parametrosFocos16).planeta.x ≠ 0 ∨
        (-16 : ℝ) - ((sistemaVacio : Sistema ℝ).calcularFocos Real.sqrt
          parametrosFocos16).planeta.y ≠ 0)) ∧
    ((-15 : ℝ) - ((sistemaVacio : Sistema ℝ).calcularFocos Real.sqrt
        parametrosFocos16).planeta.x) *
      ((particulaFlujo : Particula ℝ).calcularFuerzas Real.sqrt parametrosFocos16
        ⟨-15, -16, 32⟩
        ((sistemaVacio : Sistema ℝ).calcularFocos Real.sqrt parametrosFocos16).planeta
        ((sistemaVacio : Sistema ℝ).calcularFocos Real.sqrt parametrosFocos16).agujero).fSpin.y
      - ((-16 : ℝ) - ((sistemaVacio : Sistema ℝ).calcularFocos Real.sqrt
        parametrosFocos16).planeta.y) *
      ((particulaFlujo : Particula ℝ).calcularFuerzas Real.sqrt parametrosFocos16
        ⟨-15, -16, 32⟩
        ((sistemaVacio : Sistema ℝ).calcularFocos Real.sqrt parametrosFocos16).planeta
        ((sistemaVacio : Sistema ℝ).calcularFocos Real.sqrt parametrosFocos16).agujero).fSpin.x
      < 0 := by
  have h0 : 0 < (parametrosFocos16 : Parametros ℝ).fuerzaSpin := by
    norm_num [parametrosFocos16]
  have h1 : Vector3Distance Real.sqrt ⟨-15, -16, 32⟩
      ((sistemaVacio : Sistema ℝ).calcularFocos Real.sqrt parametrosFocos16).planeta < 25 := by
    rw [focos16.1]
    unfold Vector3Distance
    norm_num
  have h2 : 20 ≤ Vector3Distance Real.sqrt ⟨-15, -16, 32⟩
      ((sistemaVacio : Sistema ℝ).calcularFocos Real.sqrt parametrosFocos16).agujero := by
    rw [focos16.2]
    unfold Vector3Distance
    rw [Real.le_sqrt' (by norm_num)]
    norm_num
  have h3 : ((-15 : ℝ) - ((sistemaVacio : Sistema ℝ).calcularFocos Real.sqrt
      parametrosFocos16).planeta.x ≠ 0 ∨
      (-16 : ℝ) - ((sistemaVacio : Sistema ℝ).calcularFocos Real.sqrt
        parametrosFocos16).planeta.y ≠ 0) := by
    rw [focos16.1]
    left
    norm_num
  exact ⟨⟨h0, h1, h2, h3⟩,
    (spin_sentido parametrosFocos16 particulaFlujo _ _ h0).1 ⟨-15, -16, 32⟩ h1 h2 h3⟩

/-- C14. With the foci `(-16, -16, 32)` and `(16, 16, 32)` and `fuerzaSpin = 8`, at the
point `(-16, -16, 33)`, directly above `planeta` at distance 1 and more than 20 from
`agujero`, the spin force on a flow particle is the zero vector: its magnitude is 0,
not `8 * (1 - 1/25)`. -/
theorem spin_nulo_sobre_planeta :
    Vector3Distance Real.sqrt ⟨-16, -16, 33⟩
      ((sistemaVacio : Sistema ℝ).calcularFocos Real.sqrt parametrosFocos16).planeta = 1 ∧
    20 ≤ Vector3Distance Real.sqrt ⟨-16, -16, 33⟩
      ((sistemaVacio : Sistema ℝ).calcularFocos Real.sqrt parametrosFocos16).agujero ∧
    (particulaFlujo : Particula ℝ).tipo = 0 ∧
    ((particulaFlujo : Particula ℝ).calcularFuerzas Real.sqrt parametrosFocos16
      ⟨-16, -16, 33⟩
      ((sistemaVacio : Sistema ℝ).calcularFocos Real.sqrt parametrosFocos16).planeta
      ((sistemaVacio : Sistema ℝ).calcularFocos Real.sqrt parametrosFocos16).agujero).fSpin
      = ⟨0, 0, 0⟩ ∧
    Vector3Length Real.sqrt
      ((particulaFlujo : Particula ℝ).calcularFuerzas Real.sqrt parametrosFocos16
        ⟨-16, -16, 33⟩
        ((sistemaVacio : Sistema ℝ).calcularFocos Real.sqrt parametrosFocos16).planeta
        ((sistemaVacio : Sistema ℝ).calcularFocos Real.sqrt parametrosFocos16).agujero).fSpin
      = 0 ∧
    (parametrosFocos16 : Parametros ℝ).fuerzaSpin * (1 - 1 / 25) = 7.68 := by
  have hd : Vector3Distance Real.sqrt ⟨-16, -16, 33⟩ (⟨-16, -16, 32⟩ : Vector3 ℝ) = 1 := by
    unfold Vector3Distance
    norm_num
  have ha : 20 ≤ Vector3Distance Real.sqrt ⟨-16, -16, 33⟩ (⟨16, 16, 32⟩ : Vector3 ℝ) := by
    unfold Vector3Distance
    rw [Real.le_sqrt' (by norm_num)]
    norm_num
  have h1 : Vector3Length Real.sqrt
      (Vector3Subtract (⟨-16, -16, 32⟩ : Vector3 ℝ) ⟨-16, -16, 33⟩) < 25.0 := by
    rw [← distancia_eq_longitud, hd]; norm_num
  have h2 : ¬ Vector3Length Real.sqrt
      (Vector3Subtract (⟨16, 16, 32⟩ : Vector3 ℝ) ⟨-16, -16, 33⟩) < 20.0 := by
    rw [← distancia_eq_longitud, not_lt]
    norm_num
    exact ha
  have hf : ((particulaFlujo : Particula ℝ).calcularFuerzas Real.sqrt parametrosFocos16
      ⟨-16, -16, 33⟩ ⟨-16, -16, 32⟩ ⟨16, 16, 32⟩).fSpin = ⟨0, 0, 0⟩ := by
    rw [fSpin_planeta Real.sqrt _ _ _ _ _ h1 h2]
    simp only [Vector3Subtract]
    rw [normalizar_cero _ (by norm_num)]
    simp [Vector3Add, Vector3Scale]
  rw [focos16.1, focos16.2]
  refine ⟨hd, ha, rfl, hf, ?_, by norm_num [parametrosFocos16]⟩
  rw [hf]
  simp [Vector3Length]

end Teoremas

end AtractorLorenz
